import Mathlib

/-!
Verification development for the biomarker-analytics aggregation engine.

The definitions below are a shallow embedding of the Python source under
`backend/app`: pure row-transformation logic is translated to Lean functions
over explicit row lists, SQL aggregation/ordering clauses are translated to
their documented PostgreSQL semantics, and fallible storage reads are
modelled with `Except`.  Floating-point numbers in the source are modelled
as rationals.
-/

/-! ### Definitions -/

/-! ## Generic helpers -/

/-- SQL `COUNT(DISTINCT x)` over a column given as a list. -/
def countDistinct (l : List Nat) : Nat := l.dedup.length

/-- Fold computing SQL `MAX` over a nullable numeric column: `NULL` values
are ignored and the result is `NULL` when no non-null value exists. -/
def optMaxQ (vals : List (Option ℚ)) : Option ℚ :=
  vals.foldl
    (fun acc v =>
      match acc, v with
      | none, w => w
      | some a, none => some a
      | some a, some b => some (max a b))
    none

/-- SQL `BOOL_OR` over a nullable boolean column: `NULL` values are ignored
and the result is `NULL` when no non-null value exists. -/
def optBoolOr (vals : List (Option Bool)) : Option Bool :=
  let vs := vals.filterMap id
  if vs.isEmpty then none else some (vs.any id)

/-- SQL `SUM` over a nullable integer column: `NULL` values are ignored and
the result is `NULL` when no non-null value exists. -/
def optSumZ (vals : List (Option ℤ)) : Option ℤ :=
  let vs := vals.filterMap id
  if vs.isEmpty then none else some vs.sum

/-- Python `float(v) if v else 0`: `None` and `0.0` are falsy, so both map
to `0`; any other value is kept. -/
def pyNumOrZero (v : Option ℚ) : ℚ :=
  match v with
  | none => 0
  | some x => if x == 0 then 0 else x

/-- Python `int(v) if v else 0` on a nullable integer. -/
def pyIntOrZero (v : Option ℤ) : ℤ :=
  match v with
  | none => 0
  | some x => if x == 0 then 0 else x

/-- Python `bool(v) if row else False` applied to a nullable boolean coming
out of `BOOL_OR` (the aggregate row itself is always present). -/
def pyBoolOrFalse (v : Option Bool) : Bool :=
  match v with
  | none => false
  | some b => b

/-- Python `float(v) if v else None`: `0.0` collapses to `None`. -/
def pyNumOrNone (v : Option ℚ) : Option ℚ :=
  match v with
  | none => none
  | some x => if x == 0 then none else some x

/-- Python `int(x)` for the rational model: truncation toward zero. -/
def pytrunc (q : ℚ) : ℤ :=
  if 0 ≤ q then ⌊q⌋ else ⌈q⌉

/-- Keep the first row of each key group in list order, skipping rows whose
key was already seen (PostgreSQL `SELECT DISTINCT ON` applied to a list that
is already sorted by its `ORDER BY` clause, and the dict-insertion loops of
the Python services). -/
def keepFirstBy {α κ : Type} [DecidableEq κ] (key : α → κ) :
    List κ → List α → List α
  | _, [] => []
  | seen, r :: rest =>
    if (key r) ∈ seen then keepFirstBy key seen rest
    else r :: keepFirstBy key (seen ++ [key r]) rest

/-! ## C7 — upsert with conflict-ignore (mutation prevalence)

`run_cbioportal_enrichment` inserts each mutation-prevalence row with
`pg_insert(...).on_conflict_do_nothing()`, the conflict target being the
unique constraint `(gene, variant_name, cancer_type, dataset)` declared in
the `a1b2c3d4e5f6` migration. -/

/-- One `mutation_prevalence` row (columns used by the services). -/
structure PrevalenceRow where
  gene : String
  variantName : String
  cancerType : String
  indicationName : Option String
  sampleCount : Nat
  totalProfiled : Nat
  frequency : ℚ
  dataset : String
  coMutations : Option (List String)
  sourceUrl : Option String
deriving Repr, DecidableEq

/-- The declared natural uniqueness key of `mutation_prevalence`
(`uq_mutation_prev_gene_var_cancer_ds`). -/
def prevUniqueKey (r : PrevalenceRow) : String × String × String × String :=
  (r.gene, r.variantName, r.cancerType, r.dataset)

/-- SQL `INSERT ... ON CONFLICT DO NOTHING` on the declared uniqueness key. -/
def insertIgnore (t : List PrevalenceRow) (r : PrevalenceRow) :
    List PrevalenceRow :=
  if t.any (fun s => prevUniqueKey s = prevUniqueKey r) then t else t ++ [r]

/-- Running one upsert batch row by row, as the enrichment loop does. -/
def runUpsertBatch (t : List PrevalenceRow) (batch : List PrevalenceRow) :
    List PrevalenceRow :=
  batch.foldl insertIgnore t

/-! ## C1 — GetOpportunityMatrix (`app/api/strategy.py:get_opportunity_matrix`)

The SQL queries aggregate trial counts and Open Targets signals per
(biomarker, indication); their result maps are inputs here.  The Python side
builds the matrix over the three core indications, sorts it, collects
opportunity cells by the hard threshold rule, sorts them by score
descending and truncates to 15.  (The cosmetic `rationale` f-string of each
opportunity entry is omitted; it repeats the `otScore` and `totalTrials`
fields.) -/

/-- One value of the `count_map` index (trial-count query result). -/
structure TrialCellCounts where
  totalTrials : Nat
  recruitingTrials : Nat
  phase3Trials : Nat
deriving Repr, DecidableEq

/-- One value of the `ot_map` index (Open Targets aggregate query result,
after the Python float/bool/int coercions). -/
structure OtCellData where
  otScore : ℚ
  hasApprovedDrug : Bool
  drugCount : Int
deriving Repr, DecidableEq

/-- One cell of the matrix row (per core indication). -/
structure MatrixCell where
  indication : String
  totalTrials : Nat
  recruitingTrials : Nat
  phase3Trials : Nat
  hasApprovedDrug : Bool
  hasFdaCdx : Bool
  otScore : ℚ
  drugCount : Int
deriving Repr, DecidableEq

structure MatrixRow where
  biomarker : String
  totalAcrossIndications : Nat
  cells : List MatrixCell
deriving Repr, DecidableEq

structure OpportunityEntry where
  biomarker : String
  indication : String
  totalTrials : Nat
  otScore : ℚ
  hasApprovedDrug : Bool
deriving Repr, DecidableEq

structure OpportunityMatrixResult where
  indications : List String
  biomarkers : List String
  matrix : List MatrixRow
  opportunities : List OpportunityEntry
deriving Repr, DecidableEq

def core_indications : List String := ["NSCLC", "Breast Cancer", "Colorectal Cancer"]

/-- Matrix-cell assembly: `count_map.get((bm, ind), zeros)` and
`ot_map.get((bm, ind), zeros)` with CDx membership. -/
def buildMatrix (allBiomarkers : List String)
    (countMap : String → String → Option TrialCellCounts)
    (otMap : String → String → Option OtCellData)
    (cdxBiomarkers : List String) : List MatrixRow :=
  allBiomarkers.map (fun bm =>
    let cells := core_indications.map (fun ind =>
      let counts := (countMap bm ind).getD ⟨0, 0, 0⟩
      let ot := (otMap bm ind).getD ⟨0, false, 0⟩
      { indication := ind
        totalTrials := counts.totalTrials
        recruitingTrials := counts.recruitingTrials
        phase3Trials := counts.phase3Trials
        hasApprovedDrug := ot.hasApprovedDrug
        hasFdaCdx := bm ∈ cdxBiomarkers
        otScore := ot.otScore
        drugCount := ot.drugCount })
    { biomarker := bm
      totalAcrossIndications := (cells.map (fun c => c.totalTrials)).sum
      cells := cells })

/-- The threshold test of the opportunity loop:
`cell["otScore"] > 0.3 and cell["totalTrials"] < 15 and cell["totalTrials"] > 0`. -/
def isOpportunityCell (cell : MatrixCell) : Bool :=
  decide ((0.3 : ℚ) < cell.otScore) && decide (cell.totalTrials < 15) &&
    decide (0 < cell.totalTrials)

def opportunityOfCell (row : MatrixRow) (cell : MatrixCell) : OpportunityEntry :=
  { biomarker := row.biomarker
    indication := cell.indication
    totalTrials := cell.totalTrials
    otScore := cell.otScore
    hasApprovedDrug := cell.hasApprovedDrug }

/-- The nested opportunity-collection loop over the sorted matrix. -/
def collectOpportunities (matrix : List MatrixRow) : List OpportunityEntry :=
  matrix.foldl
    (fun acc row =>
      acc ++ (row.cells.filter isOpportunityCell).map (opportunityOfCell row))
    []

/-- Descending stable sort key for matrix rows (`reverse=True` on
`totalAcrossIndications`); Python's `list.sort` is stable, as is
`List.insertionSort` for a total preorder. -/
def matrixRowGE (a b : MatrixRow) : Prop :=
  b.totalAcrossIndications ≤ a.totalAcrossIndications

instance : DecidableRel matrixRowGE := fun _ _ =>
  inferInstanceAs (Decidable (_ ≤ _))

instance : IsTotal MatrixRow matrixRowGE :=
  ⟨fun a b => (le_total a.totalAcrossIndications b.totalAcrossIndications).symm⟩

instance : IsTrans MatrixRow matrixRowGE :=
  ⟨fun _ _ _ h1 h2 => le_trans h2 h1⟩

/-- Descending stable sort key for opportunities (`reverse=True` on
`otScore`). -/
def oppScoreGE (a b : OpportunityEntry) : Prop :=
  b.otScore ≤ a.otScore

instance : DecidableRel oppScoreGE := fun _ _ =>
  inferInstanceAs (Decidable (_ ≤ _))

instance : IsTotal OpportunityEntry oppScoreGE :=
  ⟨fun a b => (le_total a.otScore b.otScore).symm⟩

instance : IsTrans OpportunityEntry oppScoreGE :=
  ⟨fun _ _ _ h1 h2 => le_trans h2 h1⟩

/-- The endpoint `get_opportunity_matrix`, given the query results. -/
def get_opportunity_matrix (allBiomarkers : List String)
    (countMap : String → String → Option TrialCellCounts)
    (otMap : String → String → Option OtCellData)
    (cdxBiomarkers : List String) : OpportunityMatrixResult :=
  let matrix := List.insertionSort matrixRowGE
    (buildMatrix allBiomarkers countMap otMap cdxBiomarkers)
  let opportunities := List.insertionSort oppScoreGE (collectOpportunities matrix)
  { indications := core_indications
    biomarkers := matrix.map (fun m => m.biomarker)
    matrix := matrix
    opportunities := opportunities.take 15 }

/-! ## C2 / C3 — fetch_druggability (`app/services/strategy_data.py`)

The association aggregate is a SQL `MAX / BOOL_OR / SUM` row over
`ot_target_associations` rows matching the biomarker and indication,
coerced by the Python truthiness idioms; the drug lists are
`SELECT DISTINCT ON (drug_name) ... ORDER BY drug_name, max_phase DESC`
over `ot_known_drugs` (PostgreSQL sorts `DESC` with `NULLS FIRST` by
default). -/

/-- One `ot_target_associations` row (columns read by the services;
`overall_score` is `NOT NULL`, the others are nullable). -/
structure AssocRow where
  biomarkerSymbol : String
  indicationName : String
  overallScore : ℚ
  drugScore : Option ℚ
  cancerBiomarkerScore : Option ℚ
  cancerGeneCensusScore : Option ℚ
  literatureScore : Option ℚ
  smTractable : Option Bool
  smHasApprovedDrug : Option Bool
  abTractable : Option Bool
  abHasApprovedDrug : Option Bool
  protacTractable : Option Bool
  uniqueDrugs : Option ℤ
  approvedDrugCount : Option ℤ
deriving Repr, DecidableEq

/-- One `ot_known_drugs` row (columns read by the services). -/
structure DrugRow where
  biomarkerSymbol : String
  indicationName : String
  drugName : String
  drugType : Option String
  maxPhase : Option ℚ
  isApproved : Bool
  yearApproved : Option ℤ
  mechanismOfAction : Option String
deriving Repr, DecidableEq

/-- The aggregate association record after the Python coercions
(`float(x) if x else 0`, `bool(x)`, `int(x) if x else 0`). -/
structure CombinedAssoc where
  overallScore : ℚ
  drugScore : ℚ
  cancerBiomarkerScore : ℚ
  cancerGeneCensusScore : ℚ
  literatureScore : ℚ
  smTractable : Bool
  smHasApprovedDrug : Bool
  abTractable : Bool
  abHasApprovedDrug : Bool
  protacTractable : Bool
  totalDrugCandidates : ℤ
  totalApproved : ℤ
deriving Repr, DecidableEq

/-- The single-row aggregate query of `fetch_druggability` plus the Python
coercions, applied to the association rows matching one
biomarker/indication. -/
def combineAssociations (rows : List AssocRow) : CombinedAssoc :=
  { overallScore := pyNumOrZero (optMaxQ (rows.map (fun r => some r.overallScore)))
    drugScore := pyNumOrZero (optMaxQ (rows.map (fun r => r.drugScore)))
    cancerBiomarkerScore :=
      pyNumOrZero (optMaxQ (rows.map (fun r => r.cancerBiomarkerScore)))
    cancerGeneCensusScore :=
      pyNumOrZero (optMaxQ (rows.map (fun r => r.cancerGeneCensusScore)))
    literatureScore := pyNumOrZero (optMaxQ (rows.map (fun r => r.literatureScore)))
    smTractable := pyBoolOrFalse (optBoolOr (rows.map (fun r => r.smTractable)))
    smHasApprovedDrug :=
      pyBoolOrFalse (optBoolOr (rows.map (fun r => r.smHasApprovedDrug)))
    abTractable := pyBoolOrFalse (optBoolOr (rows.map (fun r => r.abTractable)))
    abHasApprovedDrug :=
      pyBoolOrFalse (optBoolOr (rows.map (fun r => r.abHasApprovedDrug)))
    protacTractable :=
      pyBoolOrFalse (optBoolOr (rows.map (fun r => r.protacTractable)))
    totalDrugCandidates := pyIntOrZero (optSumZ (rows.map (fun r => r.uniqueDrugs)))
    totalApproved := pyIntOrZero (optSumZ (rows.map (fun r => r.approvedDrugCount))) }

/-- The all-zero/false aggregate record. -/
def emptyCombinedAssoc : CombinedAssoc :=
  ⟨0, 0, 0, 0, 0, false, false, false, false, false, 0, 0⟩

/-- The `max_phase DESC` key order: PostgreSQL sorts a `DESC` key with
`NULLS FIRST` by default, so `NULL` ranks above every non-null phase. -/
def phaseDescGE (a b : Option ℚ) : Bool :=
  match a, b with
  | none, _ => true
  | some _, none => false
  | some x, some y => decide (y ≤ x)

/-- SQL `ORDER BY drug_name, max_phase DESC` as a "comes no later than"
relation: name ascending, then phase descending with PostgreSQL default
`NULLS FIRST` for a `DESC` key. -/
def drugOrder (a b : DrugRow) : Prop :=
  a.drugName < b.drugName ∨
    (a.drugName = b.drugName ∧ phaseDescGE a.maxPhase b.maxPhase = true)

instance : DecidableRel drugOrder := fun _ _ =>
  inferInstanceAs (Decidable (_ ∨ _))

/-- SQL `SELECT DISTINCT ON (drug_name) ... ORDER BY drug_name, max_phase DESC`:
sort by the full key, then keep the first row of each `drug_name` group. -/
def distinctOnDrugName (rows : List DrugRow) : List DrugRow :=
  keepFirstBy (fun r => r.drugName) [] (List.insertionSort drugOrder rows)

/-- The `approved_drugs` query of `fetch_druggability`. -/
def approvedDrugsQuery (rows : List DrugRow) : List DrugRow :=
  distinctOnDrugName (rows.filter (fun r => r.isApproved))

/-- The `pipeline_drugs` query of `fetch_druggability` (`max_phase >= 2`
discards SQL `NULL` phases). -/
def pipelineDrugsQuery (rows : List DrugRow) : List DrugRow :=
  distinctOnDrugName (rows.filter (fun r =>
    !r.isApproved &&
      match r.maxPhase with
      | none => false
      | some p => decide ((2 : ℚ) ≤ p)))

/-- Output row of the approved-drugs list
(`phase` goes through `float(r[4]) if r[4] else None`). -/
structure ApprovedDrugOut where
  name : String
  drugType : Option String
  yearApproved : Option ℤ
  moa : Option String
  phase : Option ℚ
deriving Repr, DecidableEq

structure PipelineDrugOut where
  name : String
  drugType : Option String
  phase : Option ℚ
  moa : Option String
deriving Repr, DecidableEq

/-- The full druggability section. -/
structure DruggabilitySection where
  combined : CombinedAssoc
  approvedDrugs : List ApprovedDrugOut
  pipelineDrugs : List PipelineDrugOut
deriving Repr, DecidableEq

/-- Pure core of `fetch_druggability`, applied to the two row sets returned
by the storage collaborator. -/
def druggabilityOf (indication biomarker : String) (assocRows : List AssocRow)
    (drugRows : List DrugRow) : DruggabilitySection :=
  let myAssoc := assocRows.filter (fun r =>
    r.biomarkerSymbol == biomarker && r.indicationName == indication)
  let myDrugs := drugRows.filter (fun r =>
    r.biomarkerSymbol == biomarker && r.indicationName == indication)
  { combined := combineAssociations myAssoc
    approvedDrugs := (approvedDrugsQuery myDrugs).map (fun r =>
      { name := r.drugName
        drugType := r.drugType
        yearApproved := r.yearApproved
        moa := r.mechanismOfAction
        phase := pyNumOrNone r.maxPhase })
    pipelineDrugs := (pipelineDrugsQuery myDrugs).map (fun r =>
      { name := r.drugName
        drugType := r.drugType
        phase := pyNumOrNone r.maxPhase
        moa := r.mechanismOfAction }) }

/-! ## C4 — fetch_evidence (`app/services/strategy_data.py:199`)

`ORDER BY CASE confidence WHEN ... ELSE 10 END`: a `NULL` confidence
matches no `WHEN` branch and also falls to the `ELSE`. -/

/-- One `ot_cancer_biomarker_evidence` row (columns read by the service). -/
structure EvidenceRow where
  biomarkerSymbol : String
  indicationName : String
  drugName : Option String
  confidence : Option String
  diseaseFromSource : Option String
deriving Repr, DecidableEq

/-- The fixed confidence ordinal of the `CASE` expression. -/
def confidenceOrdinal (c : Option String) : Nat :=
  match c with
  | none => 10
  | some s =>
    if s = "FDA guidelines" then 1
    else if s = "NCCN guidelines" then 2
    else if s = "NCCN/CAP guidelines" then 3
    else if s = "European LeukemiaNet guidelines" then 4
    else if s = "Late trials" then 5
    else if s = "Early trials" then 6
    else if s = "Clinical trials" then 7
    else if s = "Case report" then 8
    else if s = "Pre-clinical" then 9
    else 10

def recognizedConfidenceLabels : List String :=
  ["FDA guidelines", "NCCN guidelines", "NCCN/CAP guidelines",
   "European LeukemiaNet guidelines", "Late trials", "Early trials",
   "Clinical trials", "Case report", "Pre-clinical"]

/-- The `ORDER BY` relation of the evidence query. -/
def evidenceOrder (a b : EvidenceRow) : Prop :=
  confidenceOrdinal a.confidence ≤ confidenceOrdinal b.confidence

instance : DecidableRel evidenceOrder := fun _ _ =>
  inferInstanceAs (Decidable (_ ≤ _))

instance : IsTotal EvidenceRow evidenceOrder := ⟨fun _ _ => le_total _ _⟩

instance : IsTrans EvidenceRow evidenceOrder :=
  ⟨fun _ _ _ h1 h2 => le_trans h1 h2⟩

/-- The sorted evidence row list of `fetch_evidence` for one
biomarker/indication. -/
def evidenceRowsSorted (indication biomarker : String)
    (rows : List EvidenceRow) : List EvidenceRow :=
  List.insertionSort evidenceOrder (rows.filter (fun r =>
    r.biomarkerSymbol == biomarker && r.indicationName == indication))

/-- One entry of the `byLevel` grouping. -/
structure EvidenceOut where
  biomarker : String
  drug : Option String
  disease : Option String
deriving Repr, DecidableEq

/-- The insertion-ordered `evidence_by_level` dict: `level = r[2] or
"Unknown"` (Python `or` also replaces the empty string). -/
def evidenceByLevel (rows : List EvidenceRow) :
    List (String × List EvidenceOut) :=
  rows.foldl
    (fun acc r =>
      let level :=
        match r.confidence with
        | none => "Unknown"
        | some s => if s = "" then "Unknown" else s
      let entry : EvidenceOut :=
        { biomarker := r.biomarkerSymbol, drug := r.drugName,
          disease := r.diseaseFromSource }
      match acc.findIdx? (fun p => p.1 == level) with
      | some i => acc.modify (fun p => (p.1, p.2 ++ [entry])) i
      | none => acc ++ [(level, [entry])])
    []

/-- The full `fetch_evidence` section. -/
structure EvidenceSection where
  total : Nat
  byLevel : List (String × List EvidenceOut)
deriving Repr, DecidableEq

def evidenceOf (indication biomarker : String) (rows : List EvidenceRow) :
    EvidenceSection :=
  let sorted := evidenceRowsSorted indication biomarker rows
  { total := sorted.length, byLevel := evidenceByLevel sorted }

/-! ## C5 / C6 — fetch_patient_funnel (`app/services/variant_data.py:246`) -/

/-- Character-list prefix test (no library dependence, kernel-reducible). -/
def charsEqPrefix : List Char → List Char → Bool
  | [], _ => true
  | _ :: _, [] => false
  | a :: as, b :: bs => a == b && charsEqPrefix as bs

/-- Substring test on character lists. -/
def charsContains (needle : List Char) : List Char → Bool
  | [] => needle.isEmpty
  | b :: bs => charsEqPrefix needle (b :: bs) || charsContains needle bs

/-- SQL `hay ILIKE '%' || needle || '%'`: case-insensitive containment. -/
def ilikeContains (hay needle : String) : Bool :=
  charsContains needle.toLower.data hay.toLower.data

/-- One joined trial/biomarker/indication row as read by the funnel's
recruiting-trials query. -/
structure TrialVariantRow where
  trialId : Nat
  biomarkerName : String
  variantName : Option String
  cutoffValue : Option String
  indicationName : String
  status : Option String
deriving Repr, DecidableEq

/-- The `INCIDENCE_ESTIMATES` reference table (annual US estimates). -/
def INCIDENCE_ESTIMATES : List (String × Nat) :=
  [("NSCLC", 228000), ("Breast Cancer", 310000), ("Colorectal Cancer", 153000),
   ("Melanoma", 100000), ("Gastric Cancer", 27000)]

/-- The `TESTING_RATES` reference table. -/
def TESTING_RATES : List (String × List (String × ℚ)) :=
  [("NSCLC",
    [("KRAS", 0.70), ("EGFR", 0.75), ("BRAF", 0.65), ("ALK", 0.75),
     ("ROS1", 0.60), ("RET", 0.55), ("MET", 0.55), ("NTRK", 0.50),
     ("ERBB2", 0.50)]),
   ("Breast Cancer", [("ERBB2", 0.95), ("PIK3CA", 0.60), ("BRCA1", 0.40)]),
   ("Colorectal Cancer", [("KRAS", 0.80), ("BRAF", 0.70), ("ERBB2", 0.30)]),
   ("Melanoma", [("BRAF", 0.85)]),
   ("Gastric Cancer", [("ERBB2", 0.70)])]

/-- Lookup `INCIDENCE_ESTIMATES.get(indication, 0)`. -/
def incidenceOf (indication : String) : Nat :=
  ((INCIDENCE_ESTIMATES.lookup indication).getD 0)

/-- Lookup `TESTING_RATES.get(indication, default).get(gene, 0.5)`. -/
def testingRateOf (indication gene : String) : ℚ :=
  ((((TESTING_RATES.lookup indication)).getD []).lookup gene).getD 0.5

/-- The `prev_row` query: rows for (gene, variant, indication), ordered by
`total_profiled DESC`, `LIMIT 1`. -/
def funnelPrevPick (gene variant indication : String)
    (prevRows : List PrevalenceRow) : Option PrevalenceRow :=
  (List.insertionSort (fun a b => b.totalProfiled ≤ a.totalProfiled)
    (prevRows.filter (fun r =>
      r.gene == gene && r.variantName == variant &&
        r.indicationName == some indication))).head?

/-- The `gene_freq_row` query, `SUM(sample_count)::float /
MAX(total_profiled)` over all variants of the gene in the indication,
then the Python fallback `... if gene_freq_row and gene_freq_row[0] else
0.25` (the aggregate row of an empty set is all-`NULL`, and a computed
rate of exactly 0 is falsy and also falls back). -/
def geneMutationRateOf (gene indication : String)
    (prevRows : List PrevalenceRow) : ℚ :=
  let matching := prevRows.filter (fun r =>
    r.gene == gene && r.indicationName == some indication)
  if matching.isEmpty then 0.25
  else
    let q : ℚ := ((matching.map (fun r => r.sampleCount)).sum : Nat) /
      (((matching.map (fun r => r.totalProfiled)).foldl max 0 : Nat) : ℚ)
    if q = 0 then 0.25 else q

/-- Python `float(prev_row[0]) if prev_row else 0.0`. -/
def variantFrequencyOf (gene variant indication : String)
    (prevRows : List PrevalenceRow) : ℚ :=
  match funnelPrevPick gene variant indication prevRows with
  | some r => r.frequency
  | none => 0

/-- The recruiting-trials count for gene+variant+indication (exact
`variant_name` match or `cutoff_value ILIKE '%variant%'`). -/
def funnelRecruitingCount (gene variant indication : String)
    (trialRows : List TrialVariantRow) : Nat :=
  countDistinct ((trialRows.filter (fun t =>
    t.biomarkerName == gene &&
      (t.variantName == some variant ||
        (match t.cutoffValue with
         | none => false
         | some cv => ilikeContains cv variant)) &&
      t.indicationName == indication &&
      t.status == some "Recruiting")).map (fun t => t.trialId))

/-- Stage 1, `tested = int(incidence * testing_rate)`. -/
def funnelTested (gene indication : String) : ℤ :=
  pytrunc ((incidenceOf indication : ℚ) * testingRateOf indication gene)

/-- Stage 2, `gene_positive = int(tested * gene_mutation_rate)`. -/
def funnelGenePositive (gene indication : String)
    (prevRows : List PrevalenceRow) : ℤ :=
  pytrunc ((funnelTested gene indication : ℚ) *
    geneMutationRateOf gene indication prevRows)

/-- Stage 3, `variant_positive = int(tested * variant_freq) if variant_freq > 0 else
int(gene_positive * 0.3)` (stage 3). -/
def funnelVariantPositive (gene variant indication : String)
    (prevRows : List PrevalenceRow) : ℤ :=
  if 0 < variantFrequencyOf gene variant indication prevRows then
    pytrunc ((funnelTested gene indication : ℚ) *
      variantFrequencyOf gene variant indication prevRows)
  else pytrunc ((funnelGenePositive gene indication prevRows : ℚ) * 0.3)

/-- Stage 4, `eligible = int(variant_positive * 0.65)`. -/
def funnelEligible (gene variant indication : String)
    (prevRows : List PrevalenceRow) : ℤ :=
  pytrunc ((funnelVariantPositive gene variant indication prevRows : ℚ) * 0.65)

/-- Stage 5, `on_treatment = int(variant_positive * 0.30)`. -/
def funnelOnTreatment (gene variant indication : String)
    (prevRows : List PrevalenceRow) : ℤ :=
  pytrunc ((funnelVariantPositive gene variant indication prevRows : ℚ) * 0.30)

structure FunnelStage where
  name : String
  count : ℤ
  pct : Option ℚ
  source : String
deriving Repr, DecidableEq

structure PatientFunnel where
  gene : String
  variant : String
  indication : String
  stages : List FunnelStage
  recruitingTrials : Nat
  datasetUsed : Option String
deriving Repr, DecidableEq

/-- The function `fetch_patient_funnel`, over the prevalence and trial row sets the
storage collaborator returns. -/
def fetch_patient_funnel (gene variant indication : String)
    (prevRows : List PrevalenceRow) (trialRows : List TrialVariantRow) :
    PatientFunnel :=
  let incidence := incidenceOf indication
  let testing_rate := testingRateOf indication gene
  let prev_row := funnelPrevPick gene variant indication prevRows
  let gene_mutation_rate := geneMutationRateOf gene indication prevRows
  let variant_freq := variantFrequencyOf gene variant indication prevRows
  let tested := funnelTested gene indication
  let gene_positive := funnelGenePositive gene indication prevRows
  let variant_positive := funnelVariantPositive gene variant indication prevRows
  let eligible := funnelEligible gene variant indication prevRows
  let on_treatment := funnelOnTreatment gene variant indication prevRows
  let dataset := match prev_row with
    | some r => r.dataset
    | none => "estimate"
  { gene := gene
    variant := variant
    indication := indication
    stages :=
      [{ name := "All " ++ indication, count := (incidence : ℤ), pct := none,
         source := "SEER/NCI Annual Estimates" },
       { name := "Tested for " ++ gene, count := tested,
         pct := some testing_rate,
         source := "Published testing rate estimates" },
       { name := gene ++ " Mutated", count := gene_positive,
         pct := some gene_mutation_rate,
         source := "cBioPortal (" ++ dataset ++ ")" },
       { name := gene ++ " " ++ variant ++ "+", count := variant_positive,
         pct := if 0 < variant_freq then some variant_freq else none,
         source := "cBioPortal (" ++ dataset ++ ")" },
       { name := "Eligible for Therapy", count := eligible, pct := some 0.65,
         source := "Estimated from trial eligibility criteria" },
       { name := "On Treatment", count := on_treatment, pct := some 0.30,
         source := "Treatment penetration estimate" }]
    recruitingTrials := funnelRecruitingCount gene variant indication trialRows
    datasetUsed := prev_row.map (fun r => r.dataset) }

/-! ## C10 — fetch_variant_card prevalence section
(`app/services/variant_data.py:13-37`) -/

/-- Grouping key `r[1] or r[0]`: Python `or` replaces both `None` and the empty
string by `cancer_type`. -/
def prevKeyOf (r : PrevalenceRow) : String :=
  match r.indicationName with
  | none => r.cancerType
  | some s => if s = "" then r.cancerType else s

/-- The per-indication prevalence entry of the card. -/
structure PrevEntry where
  cancerType : String
  frequency : ℚ
  sampleCount : Nat
  totalProfiled : Nat
  dataset : String
  sourceUrl : Option String
deriving Repr, DecidableEq

def prevEntryOf (r : PrevalenceRow) : PrevEntry :=
  { cancerType := r.cancerType
    frequency := r.frequency
    sampleCount := r.sampleCount
    totalProfiled := r.totalProfiled
    dataset := r.dataset
    sourceUrl := r.sourceUrl }

/-- The body of the prevalence loop: insert each row under its key only if
the key is not yet present, and take co-mutations from the first row whose
list is non-null and non-empty (`if co_mutations is None and r[6]`). -/
def buildPrevalence (rows : List PrevalenceRow) :
    (List (String × PrevEntry)) × Option (List String) :=
  rows.foldl
    (fun acc r =>
      let key := prevKeyOf r
      let prev :=
        if key ∈ acc.1.map (fun p => p.1) then acc.1
        else acc.1 ++ [(key, prevEntryOf r)]
      let com :=
        match acc.2 with
        | some c => some c
        | none =>
          match r.coMutations with
          | none => none
          | some c => if c.isEmpty then none else some c
      (prev, com))
    ([], none)

/-- SQL `ORDER BY frequency DESC` (the column is `NOT NULL`). -/
def prevOrderGE (a b : PrevalenceRow) : Prop := b.frequency ≤ a.frequency

instance : DecidableRel prevOrderGE := fun _ _ =>
  inferInstanceAs (Decidable (_ ≤ _))

instance : IsTotal PrevalenceRow prevOrderGE :=
  ⟨fun a b => (le_total a.frequency b.frequency).symm⟩

instance : IsTrans PrevalenceRow prevOrderGE :=
  ⟨fun _ _ _ h1 h2 => le_trans h2 h1⟩

/-- The prevalence section of `fetch_variant_card`: rows for (gene,
variant) sorted by frequency descending, then the dict-building loop; the
final co-mutation list is `co_mutations or []`. -/
def variant_card_prevalence (gene variant : String)
    (rows : List PrevalenceRow) : (List (String × PrevEntry)) × List String :=
  let sorted := List.insertionSort prevOrderGE (rows.filter (fun r =>
    r.gene == gene && r.variantName == variant))
  let built := buildPrevalence sorted
  (built.1, built.2.getD [])

/-- The first non-null, non-empty co-mutation list in row order. -/
def firstNonemptyCom : List PrevalenceRow → Option (List String)
  | [] => none
  | r :: rest =>
    match r.coMutations with
    | none => firstNonemptyCom rest
    | some c => if c.isEmpty then firstNonemptyCom rest else some c

/-! ## C8 / C9 — the strategy-brief composer
(`app/services/strategy_data.py`, `app/api/strategy.py:get_strategy_brief`)

Each fetcher reads its row set(s) from the storage collaborator, which may
fail (SQLAlchemy raises); reads are modelled as `Except`.  The composer
`fetch_all_strategy_data` calls the seven fetchers sequentially with no
exception handling, so one failing read aborts the whole brief. -/

/-- One joined `trial_biomarkers`/`trials`/`indications` row. -/
structure TrialBmRow where
  trialId : Nat
  biomarkerName : String
  indicationName : String
  status : Option String
  phase : Option String
  sponsor : Option String
  startYear : Option ℤ
  cutoffValue : Option String
  cutoffUnit : Option String
  cutoffOperator : Option String
  assayName : Option String
deriving Repr, DecidableEq

structure AssayRow where
  name : String
  manufacturer : Option String
  platform : Option String
  fdaApproved : Bool
  biomarkerNames : List String
  companionDxFor : Option String
deriving Repr, DecidableEq

structure CutoffTrendRow where
  biomarkerName : String
  tumorType : String
  year : ℤ
  cutoffValue : Option String
  cutoffUnit : Option String
  trialCount : Option ℤ
  dominantAssay : Option String
deriving Repr, DecidableEq

structure GwasRow where
  rsId : String
  gene : Option String
  traitName : Option String
  pValue : Option ℚ
  oddsRatio : Option ℚ
  riskAllele : Option String
  population : Option String
  pubmedId : Option String
deriving Repr, DecidableEq

structure PubmedRow where
  pmid : String
  title : String
  journal : Option String
  pubDate : Option ℤ
  authors : Option (List String)
  biomarkerMentions : List String
  indicationMentions : List String
deriving Repr, DecidableEq

/-- SQL `GROUP BY k` with `COUNT(DISTINCT id)` over (key, id) pairs, keys in
first-appearance order. -/
def groupCountsByKey {K : Type} [DecidableEq K] (keyed : List (K × Nat)) :
    List (K × Nat) :=
  ((keyed.map (fun p => p.1)).dedup).map (fun k =>
    (k, ((keyed.filter (fun p => p.1 = k)).map (fun p => p.2)).dedup.length))

/-- SQL `GROUP BY k` with `COUNT(*)`. -/
def groupCountAll {K : Type} [DecidableEq K] (keys : List K) : List (K × Nat) :=
  keys.dedup.map (fun k => (k, (keys.filter (fun x => x = k)).length))

/-- SQL `ORDER BY cnt DESC` over grouped counts. -/
def countsSortDesc {K : Type} [DecidableEq K] (l : List (K × Nat)) :
    List (K × Nat) :=
  List.insertionSort (fun a b => b.2 ≤ a.2) l

/-- SQL `MIN` over a nullable integer column. -/
def optMinZ (vals : List ℤ) : Option ℤ :=
  vals.foldl
    (fun acc v =>
      match acc with
      | none => some v
      | some a => some (min a v))
    none

/-- SQL `MAX` over an integer column (`NULL` on the empty set). -/
def optMaxZ (vals : List ℤ) : Option ℤ :=
  vals.foldl
    (fun acc v =>
      match acc with
      | none => some v
      | some a => some (max a v))
    none

structure TrialSummary where
  total : Nat
  recruiting : Nat
  byPhase : List (String × Nat)
  topSponsors : List (String × Nat)
  yearTrend : List (ℤ × Nat)
  firstTrialYear : Option ℤ
  latestTrialYear : Option ℤ
deriving Repr, DecidableEq

/-- Pure core of `fetch_trial_summary`. -/
def trialSummaryOf (indication biomarker : String) (rows : List TrialBmRow) :
    TrialSummary :=
  let mine := rows.filter (fun r =>
    r.biomarkerName == biomarker && r.indicationName == indication)
  { total := countDistinct (mine.map (fun r => r.trialId))
    recruiting := countDistinct
      ((mine.filter (fun r => r.status == some "Recruiting")).map
        (fun r => r.trialId))
    byPhase := countsSortDesc (groupCountsByKey
      (mine.filterMap (fun r => r.phase.map (fun ph => (ph, r.trialId)))))
    topSponsors := (countsSortDesc (groupCountsByKey
      (mine.filterMap (fun r => r.sponsor.map (fun sp => (sp, r.trialId)))))).take 10
    yearTrend := List.insertionSort (fun a b => a.1 ≤ b.1)
      (groupCountsByKey
        (mine.filterMap (fun r => r.startYear.map (fun y => (y, r.trialId)))))
    firstTrialYear := optMinZ (mine.filterMap (fun r => r.startYear))
    latestTrialYear := optMaxZ (mine.filterMap (fun r => r.startYear)) }

structure CutoffOut where
  value : String
  unit : String
  operator : String
  count : Nat
deriving Repr, DecidableEq

structure CutoffTrendOut where
  year : ℤ
  cutoffValue : Option String
  cutoffUnit : Option String
  trialCount : Option ℤ
  dominantAssay : Option String
deriving Repr, DecidableEq

structure CutoffLandscape where
  dominantCutoffs : List CutoffOut
  assaysUsed : List (String × Nat)
  companionDiagnostics : List String
  cutoffTrends : List CutoffTrendOut
deriving Repr, DecidableEq

/-- Pure core of `fetch_cutoff_landscape` (`r[1] or ""` maps a null or
empty unit/operator to the empty string). -/
def cutoffLandscapeOf (indication biomarker : String)
    (rows : List TrialBmRow) (assays : List AssayRow)
    (trends : List CutoffTrendRow) : CutoffLandscape :=
  let mine := rows.filter (fun r =>
    r.biomarkerName == biomarker && r.indicationName == indication)
  { dominantCutoffs :=
      ((countsSortDesc (groupCountAll
        (mine.filterMap (fun r =>
          match r.cutoffValue with
          | none => none
          | some v =>
            if v = "" then none
            else some (v, r.cutoffUnit.getD "", r.cutoffOperator.getD ""))))).map
        (fun p =>
          { value := p.1.1, unit := p.1.2.1, operator := p.1.2.2,
            count := p.2 })).take 10
    assaysUsed :=
      ((countsSortDesc (groupCountAll
        (mine.filterMap (fun r =>
          match r.assayName with
          | none => none
          | some a =>
            if a = "" || a = "Not specified" then none else some a))))).take 10
    companionDiagnostics :=
      ((assays.filter (fun a =>
        biomarker ∈ a.biomarkerNames && a.fdaApproved)).map (fun a => a.name))
    cutoffTrends :=
      (List.insertionSort (fun a b => a.year ≤ b.year)
        (trends.filter (fun t =>
          t.biomarkerName == biomarker && t.tumorType == indication))).map
        (fun t =>
          { year := t.year, cutoffValue := t.cutoffValue,
            cutoffUnit := t.cutoffUnit, trialCount := t.trialCount,
            dominantAssay := t.dominantAssay }) }

structure AssayOut where
  name : String
  manufacturer : Option String
  platform : Option String
  cdxFor : Option String
deriving Repr, DecidableEq

structure ResearchAssayOut where
  name : String
  manufacturer : Option String
  platform : Option String
deriving Repr, DecidableEq

structure AssayLandscape where
  fdaApproved : List AssayOut
  researchUse : List ResearchAssayOut
deriving Repr, DecidableEq

/-- SQL `ORDER BY fda_approved DESC, name`. -/
def assayOrder (a b : AssayRow) : Prop :=
  (a.fdaApproved = true ∧ b.fdaApproved = false) ∨
    (a.fdaApproved = b.fdaApproved ∧ a.name ≤ b.name)

instance : DecidableRel assayOrder := fun _ _ =>
  inferInstanceAs (Decidable (_ ∨ _))

/-- Pure core of `fetch_assay_landscape`. -/
def assayLandscapeOf (biomarker : String) (assays : List AssayRow) :
    AssayLandscape :=
  let all_assays := List.insertionSort assayOrder
    (assays.filter (fun a => biomarker ∈ a.biomarkerNames))
  { fdaApproved := (all_assays.filter (fun a => a.fdaApproved)).map (fun a =>
      { name := a.name, manufacturer := a.manufacturer,
        platform := a.platform, cdxFor := a.companionDxFor })
    researchUse := (all_assays.filter (fun a => !a.fdaApproved)).map (fun a =>
      { name := a.name, manufacturer := a.manufacturer,
        platform := a.platform }) }

/-- The static biomarker → gene symbols table. -/
def BIOMARKER_GENE_MAP : List (String × List String) :=
  [("EGFR", ["EGFR"]), ("KRAS", ["KRAS"]), ("BRAF", ["BRAF"]),
   ("ALK", ["ALK"]), ("HER2", ["ERBB2"]), ("PD-L1", ["CD274"]),
   ("BRCA1/2", ["BRCA1", "BRCA2"]), ("MSI", ["MLH1", "MSH2", "MSH6", "PMS2"]),
   ("NTRK", ["NTRK1", "NTRK2", "NTRK3"]), ("PIK3CA", ["PIK3CA"]),
   ("ER", ["ESR1"]), ("PR", ["PGR"]), ("Ki-67", ["MKI67"]), ("RET", ["RET"]),
   ("ROS1", ["ROS1"]), ("MET", ["MET"]), ("TMB", []), ("ctDNA", []),
   ("TILs", [])]

structure GwasOut where
  rsId : String
  gene : Option String
  trait : Option String
  pValue : Option ℚ
  oddsRatio : Option ℚ
  riskAllele : Option String
  population : Option String
  pubmedId : Option String
deriving Repr, DecidableEq

structure GeneticContext where
  gwasVariants : List GwasOut
  geneSymbols : List String
deriving Repr, DecidableEq

/-- SQL `ORDER BY p_value ASC` (PostgreSQL default `NULLS LAST` for `ASC`). -/
def pvalAscLE (a b : GwasRow) : Bool :=
  match a.pValue, b.pValue with
  | none, none => true
  | none, some _ => false
  | some _, none => true
  | some x, some y => decide (x ≤ y)

/-- The GWAS query and row mapping of `fetch_genetic_context`, for a
non-empty gene-symbol list. -/
def gwasVariantsOf (geneSymbols : List String) (rows : List GwasRow) :
    List GwasOut :=
  ((List.insertionSort (fun a b => pvalAscLE a b = true)
      (rows.filter (fun r =>
        match r.gene with
        | none => false
        | some g => geneSymbols.contains g))).take 10).map (fun r =>
    { rsId := r.rsId, gene := r.gene, trait := r.traitName,
      pValue := r.pValue, oddsRatio := r.oddsRatio,
      riskAllele := r.riskAllele, population := r.population,
      pubmedId := r.pubmedId })

/-- Pure view of `fetch_genetic_context`: empty gene list → no GWAS query,
empty result. -/
def geneticContextOf (biomarker : String) (rows : List GwasRow) :
    GeneticContext :=
  let gene_symbols := (BIOMARKER_GENE_MAP.lookup biomarker).getD []
  { gwasVariants :=
      if gene_symbols.isEmpty then [] else gwasVariantsOf gene_symbols rows
    geneSymbols := gene_symbols }

structure PublicationOut where
  pmid : String
  title : String
  journal : Option String
  pubDate : Option ℤ
  authors : List String
deriving Repr, DecidableEq

/-- SQL `ORDER BY pub_date DESC NULLS LAST`. -/
def pubDateDescLE (a b : PubmedRow) : Bool :=
  match a.pubDate, b.pubDate with
  | none, none => true
  | none, some _ => false
  | some _, none => true
  | some x, some y => decide (y ≤ x)

/-- Pure core of `fetch_publications` (`r[4][:3] if r[4] else []`). -/
def publicationsOf (indication biomarker : String) (rows : List PubmedRow) :
    List PublicationOut :=
  ((List.insertionSort (fun a b => pubDateDescLE a b = true)
      (rows.filter (fun r =>
        biomarker ∈ r.biomarkerMentions ∧
          indication ∈ r.indicationMentions))).take 10).map (fun r =>
    { pmid := r.pmid, title := r.title, journal := r.journal,
      pubDate := r.pubDate, authors := (r.authors.getD []).take 3 })

/-- A storage-collaborator failure (SQLAlchemy raising). -/
inductive DbErr where
  | failure
deriving Repr, DecidableEq

/-- The storage collaborator: each table read either returns its rows or
fails. -/
structure Db where
  trialBiomarkers : Except DbErr (List TrialBmRow)
  assays : Except DbErr (List AssayRow)
  cutoffTrends : Except DbErr (List CutoffTrendRow)
  otAssociations : Except DbErr (List AssocRow)
  otKnownDrugs : Except DbErr (List DrugRow)
  evidence : Except DbErr (List EvidenceRow)
  gwas : Except DbErr (List GwasRow)
  pubmed : Except DbErr (List PubmedRow)

def fetch_trial_summary (db : Db) (indication biomarker : String) :
    Except DbErr TrialSummary := do
  let rows ← db.trialBiomarkers
  pure (trialSummaryOf indication biomarker rows)

def fetch_cutoff_landscape (db : Db) (indication biomarker : String) :
    Except DbErr CutoffLandscape := do
  let rows ← db.trialBiomarkers
  let assays ← db.assays
  let trends ← db.cutoffTrends
  pure (cutoffLandscapeOf indication biomarker rows assays trends)

def fetch_druggability (db : Db) (indication biomarker : String) :
    Except DbErr DruggabilitySection := do
  let assocs ← db.otAssociations
  let drugs ← db.otKnownDrugs
  pure (druggabilityOf indication biomarker assocs drugs)

def fetch_evidence (db : Db) (indication biomarker : String) :
    Except DbErr EvidenceSection := do
  let rows ← db.evidence
  pure (evidenceOf indication biomarker rows)

def fetch_assay_landscape (db : Db) (biomarker : String) :
    Except DbErr AssayLandscape := do
  let rows ← db.assays
  pure (assayLandscapeOf biomarker rows)

/-- The fetcher `fetch_genetic_context`: with no mapped gene symbols the GWAS query is
never issued, so the empty result is returned even when storage is down. -/
def fetch_genetic_context (db : Db) (biomarker : String) :
    Except DbErr GeneticContext :=
  if ((BIOMARKER_GENE_MAP.lookup biomarker).getD []).isEmpty then
    Except.ok (geneticContextOf biomarker [])
  else do
    let rows ← db.gwas
    pure (geneticContextOf biomarker rows)

def fetch_publications (db : Db) (indication biomarker : String) :
    Except DbErr (List PublicationOut) := do
  let rows ← db.pubmed
  pure (publicationsOf indication biomarker rows)

/-- The seven-section strategy payload. -/
structure StrategyData where
  trialSummary : TrialSummary
  cutoffLandscape : CutoffLandscape
  druggability : DruggabilitySection
  evidence : EvidenceSection
  assayLandscape : AssayLandscape
  geneticContext : GeneticContext
  publications : List PublicationOut
deriving Repr, DecidableEq

/-- The composer `fetch_all_strategy_data`: the seven fetchers called in sequence with
no exception isolation. -/
def fetch_all_strategy_data (db : Db) (indication biomarker : String) :
    Except DbErr StrategyData := do
  let trialSummary ← fetch_trial_summary db indication biomarker
  let cutoffLandscape ← fetch_cutoff_landscape db indication biomarker
  let druggability ← fetch_druggability db indication biomarker
  let evidence ← fetch_evidence db indication biomarker
  let assayLandscape ← fetch_assay_landscape db biomarker
  let geneticContext ← fetch_genetic_context db biomarker
  let publications ← fetch_publications db indication biomarker
  pure { trialSummary := trialSummary, cutoffLandscape := cutoffLandscape,
         druggability := druggability, evidence := evidence,
         assayLandscape := assayLandscape, geneticContext := geneticContext,
         publications := publications }

/-- A database whose evidence read fails while every other table is fine. -/
def dbEvidenceDown : Db :=
  { trialBiomarkers := Except.ok [], assays := Except.ok [],
    cutoffTrends := Except.ok [], otAssociations := Except.ok [],
    otKnownDrugs := Except.ok [], evidence := Except.error DbErr.failure,
    gwas := Except.ok [], pubmed := Except.ok [] }

/-! ### Theorems -/

theorem pyNumOrZero_some (x : ℚ) : pyNumOrZero (some x) = x := by
  simp only [pyNumOrZero, beq_iff_eq]
  split <;> simp_all

theorem pyIntOrZero_some (x : ℤ) : pyIntOrZero (some x) = x := by
  simp only [pyIntOrZero, beq_iff_eq]
  split <;> simp_all

theorem pytrunc_of_nonneg {q : ℚ} (h : 0 ≤ q) : pytrunc q = ⌊q⌋ := by
  simp [pytrunc, h]

theorem optMaxQ_go (vals : List (Option ℚ)) (a : ℚ) :
    vals.foldl
      (fun acc v =>
        match acc, v with
        | none, w => w
        | some a, none => some a
        | some a, some b => some (max a b))
      (some a) = some ((vals.filterMap id).foldl max a) := by
  induction vals generalizing a with
  | nil => simp
  | cons v rest ih =>
    cases v with
    | none => simpa using ih a
    | some b => simpa using ih (max a b)

theorem optMaxQ_eq (vals : List (Option ℚ)) :
    optMaxQ vals =
      match vals.filterMap id with
      | [] => none
      | x :: xs => some (xs.foldl max x) := by
  induction vals with
  | nil => rfl
  | cons v rest ih =>
    cases v with
    | none => simpa [optMaxQ] using ih
    | some b =>
      simp only [optMaxQ, List.foldl_cons]
      rw [optMaxQ_go]
      simp

theorem foldl_max_mem (xs : List ℚ) (a : ℚ) :
    xs.foldl max a = a ∨ xs.foldl max a ∈ xs := by
  induction xs generalizing a with
  | nil => simp
  | cons x rest ih =>
    simp only [List.foldl_cons, List.mem_cons]
    rcases ih (max a x) with h | h
    · rcases max_choice a x with hm | hm
      · left; rw [h, hm]
      · right; left; rw [h, hm]
    · right; right; exact h

theorem foldl_max_ub (xs : List ℚ) (a : ℚ) :
    a ≤ xs.foldl max a ∧ ∀ x ∈ xs, x ≤ xs.foldl max a := by
  induction xs generalizing a with
  | nil => simp
  | cons x rest ih =>
    obtain ⟨h1, h2⟩ := ih (max a x)
    refine ⟨le_trans (le_max_left a x) h1, ?_⟩
    intro y hy
    rcases List.mem_cons.mp hy with rfl | hy
    · exact le_trans (le_max_right a y) h1
    · exact h2 y hy

/-- The maximum over the non-null values of a column is itself one of those
values and bounds them all. -/
theorem optMaxQ_spec (vals : List (Option ℚ)) (m : ℚ)
    (h : optMaxQ vals = some m) :
    m ∈ vals.filterMap id ∧ ∀ v ∈ vals.filterMap id, v ≤ m := by
  rw [optMaxQ_eq] at h
  rcases hv : vals.filterMap id with _ | ⟨x, xs⟩
  · rw [hv] at h; cases h
  · rw [hv] at h
    have hm : m = xs.foldl max x := by
      have := h; simpa using this.symm
    subst hm
    constructor
    · rcases foldl_max_mem xs x with h1 | h1
      · simp [h1]
      · simp [h1]
    · intro v hv2
      rcases List.mem_cons.mp hv2 with rfl | hv2
      · exact (foldl_max_ub xs v).1
      · exact (foldl_max_ub xs x).2 v hv2

theorem optMaxQ_none_iff (vals : List (Option ℚ)) :
    optMaxQ vals = none ↔ vals.filterMap id = [] := by
  rw [optMaxQ_eq]
  rcases hv : vals.filterMap id with _ | ⟨x, xs⟩ <;> simp

/-! Properties of `keepFirstBy`. -/

theorem keepFirstBy_subset {α κ : Type} [DecidableEq κ] (key : α → κ)
    (seen : List κ) (l : List α) :
    ∀ r ∈ keepFirstBy key seen l, r ∈ l := by
  induction l generalizing seen with
  | nil => simp [keepFirstBy]
  | cons a rest ih =>
    intro r hr
    simp only [keepFirstBy] at hr
    split at hr
    · exact List.mem_cons_of_mem a (ih _ r hr)
    · rcases List.mem_cons.mp hr with rfl | hr
      · exact List.mem_cons_self _ _
      · exact List.mem_cons_of_mem _ (ih _ r hr)

/-- A kept row is the first row of the input carrying its key: it splits the
list into earlier rows with different keys and later rows, and its key was
not previously seen. -/
theorem keepFirstBy_first {α κ : Type} [DecidableEq κ] (key : α → κ)
    (seen : List κ) (l : List α) :
    ∀ r ∈ keepFirstBy key seen l,
      key r ∉ seen ∧
      ∃ l₁ l₂, l = l₁ ++ r :: l₂ ∧ ∀ s ∈ l₁, key s ≠ key r := by
  induction l generalizing seen with
  | nil => simp [keepFirstBy]
  | cons a rest ih =>
    intro r hr
    simp only [keepFirstBy] at hr
    split at hr
    · rename_i hseen
      obtain ⟨hns, l₁, l₂, heq, hne⟩ := ih _ r hr
      refine ⟨hns, a :: l₁, l₂, by rw [heq]; rfl, ?_⟩
      intro s hs
      rcases List.mem_cons.mp hs with rfl | hs
      · intro hk; exact hns (hk ▸ hseen)
      · exact hne s hs
    · rename_i hseen
      rcases List.mem_cons.mp hr with rfl | hr
      · exact ⟨hseen, [], rest, rfl, by simp⟩
      · obtain ⟨hns, l₁, l₂, heq, hne⟩ := ih _ r hr
        have hrs : key r ∉ seen := fun h => hns (by simp [h])
        have hra : key r ≠ key a := fun h => hns (by simp [h])
        refine ⟨hrs, a :: l₁, l₂, by rw [heq]; rfl, ?_⟩
        intro s hs
        rcases List.mem_cons.mp hs with rfl | hs
        · exact fun h => hra h.symm
        · exact hne s hs

/-- Every input key is represented in the output (unless already seen). -/
theorem keepFirstBy_covers {α κ : Type} [DecidableEq κ] (key : α → κ)
    (seen : List κ) (l : List α) :
    ∀ s ∈ l, key s ∈ seen ∨ ∃ r ∈ keepFirstBy key seen l, key r = key s := by
  induction l generalizing seen with
  | nil => simp
  | cons a rest ih =>
    intro s hs
    simp only [keepFirstBy]
    rcases List.mem_cons.mp hs with rfl | hs
    · by_cases h : key s ∈ seen
      · left; exact h
      · right; exact ⟨s, by simp [h], rfl⟩
    · by_cases h : key a ∈ seen
      · rcases ih seen s hs with h2 | ⟨r, hr, hk⟩
        · left; exact h2
        · right; exact ⟨r, by simp [h, hr], hk⟩
      · rcases ih (seen ++ [key a]) s hs with h2 | ⟨r, hr, hk⟩
        · rcases List.mem_append.mp h2 with h3 | h3
          · left; exact h3
          · right
            refine ⟨a, by simp [h], ?_⟩
            have : key s = key a := by simpa using h3
            exact this.symm
        · right; exact ⟨r, by simp [h, hr], hk⟩

/-- The output of `keepFirstBy` has pairwise-distinct keys, none of them
previously seen. -/
theorem keepFirstBy_nodupKeys {α κ : Type} [DecidableEq κ] (key : α → κ)
    (seen : List κ) (l : List α) :
    ((keepFirstBy key seen l).map key).Nodup ∧
      ∀ r ∈ keepFirstBy key seen l, key r ∉ seen := by
  induction l generalizing seen with
  | nil => simp [keepFirstBy]
  | cons a rest ih =>
    simp only [keepFirstBy]
    split
    · rename_i hseen
      exact ih seen
    · rename_i hseen
      obtain ⟨hnd, hout⟩ := ih (seen ++ [key a])
      constructor
      · simp only [List.map_cons, List.nodup_cons]
        refine ⟨?_, hnd⟩
        intro hmem
        obtain ⟨r, hr, hk⟩ := List.mem_map.mp hmem
        exact hout r hr (by simp [hk])
      · intro r hr
        rcases List.mem_cons.mp hr with rfl | hr
        · exact hseen
        · intro h
          exact hout r hr (by simp [h])

theorem insertIgnore_of_mem (t : List PrevalenceRow) (r : PrevalenceRow)
    (h : prevUniqueKey r ∈ t.map prevUniqueKey) : insertIgnore t r = t := by
  simp only [insertIgnore]
  rw [if_pos]
  rw [List.any_eq_true]
  obtain ⟨s, hs, hk⟩ := List.mem_map.mp h
  exact ⟨s, hs, by simp [hk]⟩

theorem insertIgnore_keys_mono (t : List PrevalenceRow) (r : PrevalenceRow) :
    ∀ k ∈ t.map prevUniqueKey, k ∈ (insertIgnore t r).map prevUniqueKey := by
  intro k hk
  simp only [insertIgnore]
  split
  · exact hk
  · simp only [List.map_append, List.mem_append]
    left; exact hk

theorem insertIgnore_key_mem (t : List PrevalenceRow) (r : PrevalenceRow) :
    prevUniqueKey r ∈ (insertIgnore t r).map prevUniqueKey := by
  simp only [insertIgnore]
  split
  · rename_i h
    obtain ⟨s, hs, hk⟩ := List.any_eq_true.mp h
    have : prevUniqueKey s = prevUniqueKey r := by simpa using hk
    exact this ▸ List.mem_map_of_mem prevUniqueKey hs
  · simp

theorem runUpsertBatch_keys (t : List PrevalenceRow)
    (batch : List PrevalenceRow) :
    (∀ k ∈ t.map prevUniqueKey, k ∈ (runUpsertBatch t batch).map prevUniqueKey) ∧
      ∀ r ∈ batch, prevUniqueKey r ∈ (runUpsertBatch t batch).map prevUniqueKey := by
  induction batch generalizing t with
  | nil => simp [runUpsertBatch]
  | cons b rest ih =>
    simp only [runUpsertBatch, List.foldl_cons]
    obtain ⟨h1, h2⟩ := ih (insertIgnore t b)
    refine ⟨fun k hk => h1 k (insertIgnore_keys_mono t b k hk), ?_⟩
    intro r hr
    rcases List.mem_cons.mp hr with rfl | hr
    · exact h1 _ (insertIgnore_key_mem t r)
    · exact h2 r hr

theorem runUpsertBatch_noop (t : List PrevalenceRow)
    (batch : List PrevalenceRow)
    (h : ∀ r ∈ batch, prevUniqueKey r ∈ t.map prevUniqueKey) :
    runUpsertBatch t batch = t := by
  induction batch generalizing t with
  | nil => rfl
  | cons b rest ih =>
    simp only [runUpsertBatch, List.foldl_cons]
    rw [insertIgnore_of_mem t b (h b (List.mem_cons_self b rest))]
    exact ih t (fun r hr => h r (List.mem_cons_of_mem b hr))

theorem insertIgnore_nodupKeys (t : List PrevalenceRow) (r : PrevalenceRow)
    (h : (t.map prevUniqueKey).Nodup) :
    ((insertIgnore t r).map prevUniqueKey).Nodup := by
  simp only [insertIgnore]
  split
  · exact h
  · rename_i hna
    simp only [List.map_append, List.map_cons, List.map_nil]
    rw [List.nodup_append]
    refine ⟨h, List.nodup_singleton _, ?_⟩
    intro k hk
    simp only [List.mem_singleton]
    intro hke
    obtain ⟨s, hs, hks⟩ := List.mem_map.mp hk
    apply hna
    rw [List.any_eq_true]
    exact ⟨s, hs, by simp [hks, hke]⟩

theorem runUpsertBatch_nodupKeys (t batch : List PrevalenceRow)
    (hnd : (t.map prevUniqueKey).Nodup) :
    ((runUpsertBatch t batch).map prevUniqueKey).Nodup := by
  induction batch generalizing t with
  | nil => exact hnd
  | cons b rest ih =>
    simp only [runUpsertBatch, List.foldl_cons]
    exact ih (insertIgnore t b) (insertIgnore_nodupKeys t b hnd)

/-- C7 — Re-running the same conflict-ignore upsert batch is a no-op: the
table after the second run is identical to (hence has the same row count
as) the table after the first, and a table with no duplicate
`(gene, variant_name, cancer_type, dataset)` keys never acquires one. -/
theorem upsert_batch_idempotent (t batch : List PrevalenceRow) :
    runUpsertBatch (runUpsertBatch t batch) batch = runUpsertBatch t batch ∧
      (runUpsertBatch (runUpsertBatch t batch) batch).length =
        (runUpsertBatch t batch).length ∧
      ((t.map prevUniqueKey).Nodup →
        ((runUpsertBatch t batch).map prevUniqueKey).Nodup) := by
  have hkeys := (runUpsertBatch_keys t batch).2
  have hnoop := runUpsertBatch_noop (runUpsertBatch t batch) batch hkeys
  exact ⟨hnoop, by rw [hnoop], runUpsertBatch_nodupKeys t batch⟩

/-- C7 witness: concrete re-run of a two-row batch over a table already
containing those rows. -/
theorem upsert_batch_idempotent_witness :
    (([⟨"KRAS", "G12C", "NSCLC", some "NSCLC", 10, 100, 1/10, "genie", none,
        none⟩] : List PrevalenceRow).map prevUniqueKey).Nodup ∧
      ((runUpsertBatch
          [⟨"KRAS", "G12C", "NSCLC", some "NSCLC", 10, 100, 1/10, "genie",
            none, none⟩]
          [⟨"KRAS", "G12C", "NSCLC", some "NSCLC", 10, 100, 1/10, "genie",
            none, none⟩]).map prevUniqueKey).Nodup := by
  have h := upsert_batch_idempotent
    [⟨"KRAS", "G12C", "NSCLC", some "NSCLC", 10, 100, 1/10, "genie", none,
      none⟩]
    [⟨"KRAS", "G12C", "NSCLC", some "NSCLC", 10, 100, 1/10, "genie", none,
      none⟩]
  exact ⟨by decide, h.2.2 (by decide)⟩

theorem collectOpportunities_append (acc : List OpportunityEntry)
    (matrix : List MatrixRow) :
    matrix.foldl
      (fun acc row =>
        acc ++ (row.cells.filter isOpportunityCell).map (opportunityOfCell row))
      acc = acc ++ collectOpportunities matrix := by
  induction matrix generalizing acc with
  | nil => simp [collectOpportunities]
  | cons row rest ih =>
    simp only [collectOpportunities, List.foldl_cons, List.nil_append]
    rw [ih, ih ((row.cells.filter isOpportunityCell).map (opportunityOfCell row))]
    simp

theorem mem_collectOpportunities (matrix : List MatrixRow)
    (o : OpportunityEntry) :
    o ∈ collectOpportunities matrix ↔
      ∃ row ∈ matrix, ∃ cell ∈ row.cells,
        isOpportunityCell cell = true ∧ o = opportunityOfCell row cell := by
  induction matrix with
  | nil => simp [collectOpportunities]
  | cons row rest ih =>
    simp only [collectOpportunities, List.foldl_cons, List.nil_append]
    rw [collectOpportunities_append]
    simp only [List.mem_append, List.mem_map, List.mem_filter, ih,
      List.mem_cons]
    constructor
    · rintro (⟨cell, ⟨hc, hop⟩, rfl⟩ | ⟨r, hr, cell, hc, hop, rfl⟩)
      · exact ⟨row, Or.inl rfl, cell, hc, hop, rfl⟩
      · exact ⟨r, Or.inr hr, cell, hc, hop, rfl⟩
    · rintro ⟨r, (rfl | hr), cell, hc, hop, rfl⟩
      · exact Or.inl ⟨cell, ⟨hc, hop⟩, rfl⟩
      · exact Or.inr ⟨r, hr, cell, hc, hop, rfl⟩

/-- C1 — Opportunity-matrix contract: a cell enters the opportunity
collection iff `0 < totalTrials < 15` and `otScore > 0.3` (strict on both
sides, witnessed by the 15 / 0.3 / 0.31 boundary cases); the final
opportunity list is the score-descending sort of that collection truncated
to 15 entries, hence sorted, of length at most 15, and containing only
qualifying cells. -/
theorem opportunity_matrix_spec (allBiomarkers : List String)
    (countMap : String → String → Option TrialCellCounts)
    (otMap : String → String → Option OtCellData)
    (cdxBiomarkers : List String) :
    (∀ o,
      o ∈ collectOpportunities
          (get_opportunity_matrix allBiomarkers countMap otMap cdxBiomarkers).matrix ↔
        ∃ row ∈ (get_opportunity_matrix allBiomarkers countMap otMap
            cdxBiomarkers).matrix,
          ∃ cell ∈ row.cells,
            (0 < cell.totalTrials ∧ cell.totalTrials < 15 ∧
              (0.3 : ℚ) < cell.otScore) ∧
            o = opportunityOfCell row cell) ∧
    (get_opportunity_matrix allBiomarkers countMap otMap
        cdxBiomarkers).opportunities =
      (List.insertionSort oppScoreGE
          (collectOpportunities
            (get_opportunity_matrix allBiomarkers countMap otMap
              cdxBiomarkers).matrix)).take 15 ∧
    List.Pairwise (fun a b : OpportunityEntry => b.otScore ≤ a.otScore)
      (get_opportunity_matrix allBiomarkers countMap otMap
        cdxBiomarkers).opportunities ∧
    (get_opportunity_matrix allBiomarkers countMap otMap
        cdxBiomarkers).opportunities.length ≤ 15 ∧
    (∀ o ∈ (get_opportunity_matrix allBiomarkers countMap otMap
        cdxBiomarkers).opportunities,
      0 < o.totalTrials ∧ o.totalTrials < 15 ∧ (0.3 : ℚ) < o.otScore) ∧
    (∀ cell : MatrixCell, cell.totalTrials = 15 →
      isOpportunityCell cell = false) ∧
    (∀ cell : MatrixCell, cell.totalTrials = 14 → cell.otScore = 0.3 →
      isOpportunityCell cell = false) ∧
    (∀ cell : MatrixCell, cell.totalTrials = 14 → cell.otScore = 0.31 →
      isOpportunityCell cell = true) := by
  set M := List.insertionSort matrixRowGE
    (buildMatrix allBiomarkers countMap otMap cdxBiomarkers) with hM
  have hres : get_opportunity_matrix allBiomarkers countMap otMap cdxBiomarkers =
      { indications := core_indications
        biomarkers := M.map (fun m => m.biomarker)
        matrix := M
        opportunities :=
          (List.insertionSort oppScoreGE (collectOpportunities M)).take 15 } := by
    rw [get_opportunity_matrix]
  rw [hres]
  have hsorted : List.Pairwise oppScoreGE
      (List.insertionSort oppScoreGE (collectOpportunities M)) :=
    List.sorted_insertionSort oppScoreGE (collectOpportunities M)
  refine ⟨?_, rfl, ?_, ?_, ?_, ?_, ?_, ?_⟩
  · intro o
    rw [mem_collectOpportunities]
    constructor
    · rintro ⟨row, hrow, cell, hcell, hop, rfl⟩
      refine ⟨row, hrow, cell, hcell, ?_, rfl⟩
      simp only [isOpportunityCell, Bool.and_eq_true, decide_eq_true_eq] at hop
      exact ⟨hop.2, hop.1.2, hop.1.1⟩
    · rintro ⟨row, hrow, cell, hcell, ⟨h1, h2, h3⟩, rfl⟩
      refine ⟨row, hrow, cell, hcell, ?_, rfl⟩
      simp only [isOpportunityCell, Bool.and_eq_true, decide_eq_true_eq]
      exact ⟨⟨h3, h2⟩, h1⟩
  · exact List.Pairwise.sublist
      (List.take_sublist 15 (List.insertionSort oppScoreGE (collectOpportunities M)))
      hsorted
  · show ((List.insertionSort oppScoreGE (collectOpportunities M)).take 15).length ≤ 15
    exact List.length_take_le 15 _
  · intro o ho
    have ho2 : o ∈ List.insertionSort oppScoreGE (collectOpportunities M) :=
      List.mem_of_mem_take ho
    have ho3 : o ∈ collectOpportunities M :=
      (List.perm_insertionSort oppScoreGE (collectOpportunities M)).mem_iff.mp ho2
    obtain ⟨row, _, cell, _, hop, rfl⟩ :=
      (mem_collectOpportunities M o).mp ho3
    simp only [isOpportunityCell, Bool.and_eq_true, decide_eq_true_eq] at hop
    exact ⟨hop.2, hop.1.2, hop.1.1⟩
  · intro cell h
    simp [isOpportunityCell, h]
  · intro cell h hs
    simp [isOpportunityCell, h, hs]
  · intro cell h hs
    have : (0.3 : ℚ) < 0.31 := by norm_num
    simp [isOpportunityCell, h, hs, this]

/-- C1 witness: the boundary hypotheses discharged on concrete cells and a
concrete matrix query. -/
theorem opportunity_matrix_spec_witness :
    isOpportunityCell ⟨"NSCLC", 15, 0, 0, false, false, 1, 0⟩ = false ∧
    isOpportunityCell ⟨"NSCLC", 14, 0, 0, false, false, 0.3, 0⟩ = false ∧
    isOpportunityCell ⟨"NSCLC", 14, 0, 0, false, false, 0.31, 0⟩ = true ∧
    (get_opportunity_matrix ["EGFR"] (fun _ _ => none) (fun _ _ => none)
      []).opportunities.length ≤ 15 := by
  obtain ⟨h1, h2, h3, h4, h5, h6, h7, h8⟩ :=
    opportunity_matrix_spec ["EGFR"] (fun _ _ => none) (fun _ _ => none) []
  exact ⟨h6 _ rfl, h7 _ rfl rfl, h8 _ rfl rfl, h4⟩

/-! C2 helper lemmas. -/

theorem filterMap_id_map_some {α β : Type} (f : α → β) (l : List α) :
    (l.map (fun a => some (f a))).filterMap id = l.map f := by
  induction l <;> simp_all

theorem pyMax_spec (vals : List (Option ℚ)) (h : vals.filterMap id ≠ []) :
    pyNumOrZero (optMaxQ vals) ∈ vals.filterMap id ∧
      ∀ v ∈ vals.filterMap id, v ≤ pyNumOrZero (optMaxQ vals) := by
  rcases hm : optMaxQ vals with _ | m
  · exact absurd ((optMaxQ_none_iff vals).mp hm) h
  · rw [pyNumOrZero_some]
    exact optMaxQ_spec vals m hm

theorem pyBool_spec (vals : List (Option Bool)) :
    pyBoolOrFalse (optBoolOr vals) = (vals.filterMap id).any id := by
  unfold optBoolOr
  by_cases h : (vals.filterMap id).isEmpty
  · rw [List.isEmpty_iff] at h
    simp [h, pyBoolOrFalse]
  · simp only [h, if_false]
    rfl

theorem pySum_spec (vals : List (Option ℤ)) :
    pyIntOrZero (optSumZ vals) = (vals.filterMap id).sum := by
  unfold optSumZ
  by_cases h : (vals.filterMap id).isEmpty
  · rw [List.isEmpty_iff] at h
    simp [h, pyIntOrZero]
  · simp only [h, if_false]
    exact pyIntOrZero_some _

/-- C2 — The combined association record takes the maximum of each score
column over the non-null inputs, the logical OR of each tractability flag,
and the sum of each drug-count column; the empty input set yields the
all-zero/false record (no null, no error). -/
theorem combine_associations_spec (rows : List AssocRow) :
    (rows ≠ [] →
      (combineAssociations rows).overallScore ∈
          rows.map (fun r => r.overallScore) ∧
        ∀ r ∈ rows, r.overallScore ≤ (combineAssociations rows).overallScore) ∧
    ((rows.map (fun r => r.drugScore)).filterMap id ≠ [] →
      (combineAssociations rows).drugScore ∈
          (rows.map (fun r => r.drugScore)).filterMap id ∧
        ∀ v ∈ (rows.map (fun r => r.drugScore)).filterMap id,
          v ≤ (combineAssociations rows).drugScore) ∧
    ((rows.map (fun r => r.cancerBiomarkerScore)).filterMap id ≠ [] →
      (combineAssociations rows).cancerBiomarkerScore ∈
          (rows.map (fun r => r.cancerBiomarkerScore)).filterMap id ∧
        ∀ v ∈ (rows.map (fun r => r.cancerBiomarkerScore)).filterMap id,
          v ≤ (combineAssociations rows).cancerBiomarkerScore) ∧
    ((rows.map (fun r => r.cancerGeneCensusScore)).filterMap id ≠ [] →
      (combineAssociations rows).cancerGeneCensusScore ∈
          (rows.map (fun r => r.cancerGeneCensusScore)).filterMap id ∧
        ∀ v ∈ (rows.map (fun r => r.cancerGeneCensusScore)).filterMap id,
          v ≤ (combineAssociations rows).cancerGeneCensusScore) ∧
    ((rows.map (fun r => r.literatureScore)).filterMap id ≠ [] →
      (combineAssociations rows).literatureScore ∈
          (rows.map (fun r => r.literatureScore)).filterMap id ∧
        ∀ v ∈ (rows.map (fun r => r.literatureScore)).filterMap id,
          v ≤ (combineAssociations rows).literatureScore) ∧
    (combineAssociations rows).smTractable =
      ((rows.map (fun r => r.smTractable)).filterMap id).any id ∧
    (combineAssociations rows).smHasApprovedDrug =
      ((rows.map (fun r => r.smHasApprovedDrug)).filterMap id).any id ∧
    (combineAssociations rows).abTractable =
      ((rows.map (fun r => r.abTractable)).filterMap id).any id ∧
    (combineAssociations rows).abHasApprovedDrug =
      ((rows.map (fun r => r.abHasApprovedDrug)).filterMap id).any id ∧
    (combineAssociations rows).protacTractable =
      ((rows.map (fun r => r.protacTractable)).filterMap id).any id ∧
    (combineAssociations rows).totalDrugCandidates =
      ((rows.map (fun r => r.uniqueDrugs)).filterMap id).sum ∧
    (combineAssociations rows).totalApproved =
      ((rows.map (fun r => r.approvedDrugCount)).filterMap id).sum ∧
    combineAssociations [] = emptyCombinedAssoc := by
  refine ⟨?_, fun h => pyMax_spec _ h, fun h => pyMax_spec _ h,
    fun h => pyMax_spec _ h, fun h => pyMax_spec _ h,
    pyBool_spec _, pyBool_spec _, pyBool_spec _, pyBool_spec _, pyBool_spec _,
    pySum_spec _, pySum_spec _, rfl⟩
  intro h
  have h2 : ((rows.map (fun r => some r.overallScore)).filterMap id) =
      rows.map (fun r => r.overallScore) := filterMap_id_map_some _ rows
  have h3 : (rows.map (fun r => some r.overallScore)).filterMap id ≠ [] := by
    rw [h2]
    simpa using h
  obtain ⟨hmem, hub⟩ := pyMax_spec _ h3
  rw [h2] at hmem hub
  exact ⟨hmem, fun r hr => hub _ (List.mem_map_of_mem _ hr)⟩

/-- C2 witness: the spec's NTRK scenario — overall scores 0.1, 0.4, 0.2
combine to a member of the inputs (their maximum, 0.4). -/
theorem combine_associations_spec_witness :
    (combineAssociations
        [⟨"NTRK", "NSCLC", 0.1, none, none, none, none, none, none, none,
          none, none, none, none⟩,
         ⟨"NTRK", "NSCLC", 0.4, none, none, none, none, none, none, none,
          none, none, none, none⟩,
         ⟨"NTRK", "NSCLC", 0.2, none, none, none, none, none, none, none,
          none, none, none, none⟩]).overallScore ∈
      ([⟨"NTRK", "NSCLC", 0.1, none, none, none, none, none, none, none,
          none, none, none, none⟩,
        ⟨"NTRK", "NSCLC", 0.4, none, none, none, none, none, none, none,
          none, none, none, none⟩,
        ⟨"NTRK", "NSCLC", 0.2, none, none, none, none, none, none, none,
          none, none, none, none⟩] : List AssocRow).map
        (fun r => r.overallScore) ∧
    (combineAssociations
        [⟨"NTRK", "NSCLC", 0.1, none, none, none, none, none, none, none,
          none, none, none, none⟩,
         ⟨"NTRK", "NSCLC", 0.4, none, none, none, none, none, none, none,
          none, none, none, none⟩,
         ⟨"NTRK", "NSCLC", 0.2, none, none, none, none, none, none, none,
          none, none, none, none⟩]).overallScore = 0.4 := by
  constructor
  · exact ((combine_associations_spec _).1 (by decide)).1
  · show pyNumOrZero (optMaxQ [some 0.1, some 0.4, some 0.2]) = 0.4
    rw [show optMaxQ [some (0.1 : ℚ), some 0.4, some 0.2] =
        some (max (max 0.1 0.4) 0.2) from rfl]
    rw [pyNumOrZero_some, max_eq_right (by norm_num : (0.1 : ℚ) ≤ 0.4)]
    exact max_eq_left (by norm_num)

/-! C3 lemmas: the lexicographic `(drug_name ASC, max_phase DESC NULLS
FIRST)` order is reflexive, transitive and total. -/

theorem phaseDescGE_refl (a : Option ℚ) : phaseDescGE a a = true := by
  cases a <;> simp [phaseDescGE]

theorem phaseDescGE_trans (a b c : Option ℚ) (h1 : phaseDescGE a b = true)
    (h2 : phaseDescGE b c = true) : phaseDescGE a c = true := by
  cases a with
  | none => rfl
  | some x =>
    cases b with
    | none => exact absurd h1 (by simp [phaseDescGE])
    | some y =>
      cases c with
      | none => exact absurd h2 (by simp [phaseDescGE])
      | some z =>
        simp only [phaseDescGE, decide_eq_true_eq] at *
        exact le_trans h2 h1

theorem phaseDescGE_total (a b : Option ℚ) :
    phaseDescGE a b = true ∨ phaseDescGE b a = true := by
  cases a with
  | none => exact Or.inl rfl
  | some x =>
    cases b with
    | none => exact Or.inr rfl
    | some y =>
      simp only [phaseDescGE, decide_eq_true_eq]
      exact le_total y x

theorem drugOrder_refl (a : DrugRow) : drugOrder a a :=
  Or.inr ⟨rfl, phaseDescGE_refl a.maxPhase⟩

instance : IsTrans DrugRow drugOrder :=
  ⟨by
    intro a b c h1 h2
    rcases h1 with h1 | ⟨h1e, h1p⟩
    · rcases h2 with h2 | ⟨h2e, h2p⟩
      · exact Or.inl (lt_trans h1 h2)
      · exact Or.inl (h2e ▸ h1)
    · rcases h2 with h2 | ⟨h2e, h2p⟩
      · exact Or.inl (h1e ▸ h2)
      · exact Or.inr ⟨h1e.trans h2e, phaseDescGE_trans _ _ _ h1p h2p⟩⟩

instance : IsTotal DrugRow drugOrder :=
  ⟨by
    intro a b
    rcases lt_trichotomy a.drugName b.drugName with h | h | h
    · exact Or.inl (Or.inl h)
    · rcases phaseDescGE_total a.maxPhase b.maxPhase with hp | hp
      · exact Or.inl (Or.inr ⟨h, hp⟩)
      · exact Or.inr (Or.inr ⟨h.symm, hp⟩)
    · exact Or.inr (Or.inl h)⟩

theorem drugOrder_same_name (r s : DrugRow) (h : s.drugName = r.drugName)
    (hle : drugOrder r s) :
    phaseDescGE r.maxPhase s.maxPhase = true := by
  rcases hle with hlt | ⟨_, hp⟩
  · exact absurd (h ▸ hlt) (lt_irrefl _)
  · exact hp

/-- Over a list sorted by a reflexive relation, `keepFirstBy` keeps, for
each key, a row related to every row of that key group. -/
theorem keepFirstBy_max {α κ : Type} [DecidableEq κ] (key : α → κ)
    (R : α → α → Prop) (l : List α) (hrefl : ∀ a, R a a)
    (hp : List.Pairwise R l) :
    ∀ r ∈ keepFirstBy key [] l, ∀ s ∈ l, key s = key r → R r s := by
  intro r hr s hs hk
  obtain ⟨-, l₁, l₂, rfl, hne⟩ := keepFirstBy_first key [] l r hr
  rcases List.mem_append.mp hs with hs | hs
  · exact absurd hk (hne s hs)
  · rcases List.mem_cons.mp hs with rfl | hs
    · exact hrefl _
    · have h2 := (List.pairwise_append.mp hp).2.1
      exact (List.pairwise_cons.mp h2).1 s hs

/-- C3 (amended) — The `DISTINCT ON (drug_name)` dedup keeps at most one
row per case-sensitive drug name; the kept row for each name ranks at least
as high as every input row of that name under the `max_phase DESC NULLS
FIRST` order (so a null-phase row, when present, is the one kept, not the
highest non-null phase); every input name is represented. -/
theorem drug_dedup_spec (rows : List DrugRow) :
    ((distinctOnDrugName rows).map (fun r => r.drugName)).Nodup ∧
    (∀ r ∈ distinctOnDrugName rows,
      r ∈ rows ∧
        ∀ s ∈ rows, s.drugName = r.drugName →
          phaseDescGE r.maxPhase s.maxPhase = true) ∧
    (∀ s ∈ rows, ∃ r ∈ distinctOnDrugName rows, r.drugName = s.drugName) := by
  have hperm := List.perm_insertionSort drugOrder rows
  have hsorted : List.Pairwise drugOrder (List.insertionSort drugOrder rows) :=
    List.sorted_insertionSort drugOrder rows
  unfold distinctOnDrugName
  refine ⟨(keepFirstBy_nodupKeys _ [] _).1, ?_, ?_⟩
  · intro r hr
    constructor
    · exact hperm.mem_iff.mp (keepFirstBy_subset _ [] _ r hr)
    · intro s hs hk
      exact drugOrder_same_name r s hk
        (keepFirstBy_max (fun r => r.drugName) drugOrder _ drugOrder_refl
          hsorted r hr s (hperm.mem_iff.mpr hs) hk)
  · intro s hs
    rcases keepFirstBy_covers (fun r => r.drugName) [] _ s
        (hperm.mem_iff.mpr hs) with h | ⟨r, hr, hk⟩
    · simp at h
    · exact ⟨r, hr, hk⟩

/-- C3 counterexample — with two approved rows for the same drug, one with
`max_phase` 4 and one with SQL `NULL`, `fetch_druggability` keeps the
`NULL`-phase row (PostgreSQL sorts the `DESC` key with nulls first), so the
output phase is `None` even though a phase-4 row for the same drug name was
present: "null phases treated as lowest" is false on the code. -/
theorem approved_drugs_keep_null_phase :
    (druggabilityOf "NSCLC" "NTRK" []
        [⟨"NTRK", "NSCLC", "Larotrectinib", none, none, true, none, none⟩,
         ⟨"NTRK", "NSCLC", "Larotrectinib", none, some 4, true, none,
          none⟩]).approvedDrugs =
      [⟨"Larotrectinib", none, none, none, none⟩] := by
  have hord : drugOrder
      ⟨"NTRK", "NSCLC", "Larotrectinib", none, none, true, none, none⟩
      ⟨"NTRK", "NSCLC", "Larotrectinib", none, some 4, true, none, none⟩ :=
    Or.inr ⟨rfl, rfl⟩
  have hsort : List.insertionSort drugOrder
      [⟨"NTRK", "NSCLC", "Larotrectinib", none, none, true, none, none⟩,
       ⟨"NTRK", "NSCLC", "Larotrectinib", none, some 4, true, none, none⟩] =
      [⟨"NTRK", "NSCLC", "Larotrectinib", none, none, true, none, none⟩,
       ⟨"NTRK", "NSCLC", "Larotrectinib", none, some 4, true, none, none⟩] := by
    show List.orderedInsert drugOrder
        ⟨"NTRK", "NSCLC", "Larotrectinib", none, none, true, none, none⟩
        [⟨"NTRK", "NSCLC", "Larotrectinib", none, some 4, true, none, none⟩] = _
    unfold List.orderedInsert
    rw [if_pos hord]
  have hkey : (druggabilityOf "NSCLC" "NTRK" []
      [⟨"NTRK", "NSCLC", "Larotrectinib", none, none, true, none, none⟩,
       ⟨"NTRK", "NSCLC", "Larotrectinib", none, some 4, true, none,
        none⟩]).approvedDrugs =
      (keepFirstBy (fun r => r.drugName) []
        (List.insertionSort drugOrder
          [⟨"NTRK", "NSCLC", "Larotrectinib", none, none, true, none, none⟩,
           ⟨"NTRK", "NSCLC", "Larotrectinib", none, some 4, true, none,
            none⟩])).map (fun r =>
        ({ name := r.drugName
           drugType := r.drugType
           yearApproved := r.yearApproved
           moa := r.mechanismOfAction
           phase := pyNumOrNone r.maxPhase } : ApprovedDrugOut)) := rfl
  rw [hkey, hsort]
  rfl

/-- C3 witness: the amended maximality applied to two concrete rows of one
drug (the kept row, phase 4, ranks above the phase-2 row). -/
theorem drug_dedup_spec_witness : phaseDescGE (some 4) (some 2) = true := by
  have hneg : ¬ drugOrder ⟨"X", "Y", "A", none, some 2, true, none, none⟩
      ⟨"X", "Y", "A", none, some 4, true, none, none⟩ := by
    rintro (h | ⟨-, hp⟩)
    · exact lt_irrefl _ h
    · simp only [phaseDescGE, decide_eq_true_eq] at hp
      norm_num at hp
  have hsort : List.insertionSort drugOrder
      [⟨"X", "Y", "A", none, some 2, true, none, none⟩,
       ⟨"X", "Y", "A", none, some 4, true, none, none⟩] =
      [⟨"X", "Y", "A", none, some 4, true, none, none⟩,
       ⟨"X", "Y", "A", none, some 2, true, none, none⟩] := by
    show List.orderedInsert drugOrder
        ⟨"X", "Y", "A", none, some 2, true, none, none⟩
        [⟨"X", "Y", "A", none, some 4, true, none, none⟩] = _
    unfold List.orderedInsert
    rw [if_neg hneg]
    rfl
  have hdist : distinctOnDrugName
      [⟨"X", "Y", "A", none, some 2, true, none, none⟩,
       ⟨"X", "Y", "A", none, some 4, true, none, none⟩] =
      [⟨"X", "Y", "A", none, some 4, true, none, none⟩] := by
    unfold distinctOnDrugName
    rw [hsort]
    rfl
  have h := drug_dedup_spec
    [⟨"X", "Y", "A", none, some 2, true, none, none⟩,
     ⟨"X", "Y", "A", none, some 4, true, none, none⟩]
  refine (h.2.1 ⟨"X", "Y", "A", none, some 4, true, none, none⟩ ?_).2
    ⟨"X", "Y", "A", none, some 2, true, none, none⟩ (by simp) rfl
  rw [hdist]
  simp

/-- C4 — Evidence rows come back sorted by the fixed confidence ordinal
(`FDA guidelines` = 1 through `Pre-clinical` = 9); every label outside the
table, and an absent label, gets ordinal 10 and therefore sorts after all
recognized labels; the sort is a permutation of the matching rows (no row
dropped, no error). -/
theorem evidence_ranking_spec (indication biomarker : String)
    (rows : List EvidenceRow) :
    List.Pairwise (fun a b : EvidenceRow =>
        confidenceOrdinal a.confidence ≤ confidenceOrdinal b.confidence)
      (evidenceRowsSorted indication biomarker rows) ∧
    (evidenceRowsSorted indication biomarker rows).Perm
      (rows.filter (fun r =>
        r.biomarkerSymbol == biomarker && r.indicationName == indication)) ∧
    confidenceOrdinal (some "FDA guidelines") = 1 ∧
    confidenceOrdinal (some "NCCN guidelines") = 2 ∧
    confidenceOrdinal (some "NCCN/CAP guidelines") = 3 ∧
    confidenceOrdinal (some "European LeukemiaNet guidelines") = 4 ∧
    confidenceOrdinal (some "Late trials") = 5 ∧
    confidenceOrdinal (some "Early trials") = 6 ∧
    confidenceOrdinal (some "Clinical trials") = 7 ∧
    confidenceOrdinal (some "Case report") = 8 ∧
    confidenceOrdinal (some "Pre-clinical") = 9 ∧
    confidenceOrdinal none = 10 ∧
    (∀ s : String, s ∉ recognizedConfidenceLabels →
      confidenceOrdinal (some s) = 10) ∧
    (∀ c : Option String, ∀ s ∈ recognizedConfidenceLabels,
      confidenceOrdinal (some s) < 10 ∧
        (c = none ∨ (∀ t, c = some t → t ∉ recognizedConfidenceLabels) →
          confidenceOrdinal (some s) < confidenceOrdinal c)) := by
  refine ⟨List.sorted_insertionSort evidenceOrder _,
    List.perm_insertionSort evidenceOrder _,
    rfl, rfl, rfl, rfl, rfl, rfl, rfl, rfl, rfl, rfl, ?_, ?_⟩
  · intro s hs
    simp only [recognizedConfidenceLabels, List.mem_cons, List.mem_singleton,
      not_or] at hs
    obtain ⟨h1, h2, h3, h4, h5, h6, h7, h8, h9, -⟩ := hs
    simp [confidenceOrdinal, h1, h2, h3, h4, h5, h6, h7, h8, h9]
  · intro c s hs
    have hlt : confidenceOrdinal (some s) < 10 := by
      simp only [recognizedConfidenceLabels, List.mem_cons,
        List.not_mem_nil, or_false] at hs
      rcases hs with rfl | rfl | rfl | rfl | rfl | rfl | rfl | rfl | rfl <;>
        simp [confidenceOrdinal]
    refine ⟨hlt, ?_⟩
    intro hc
    rcases hc with rfl | hc
    · simpa [confidenceOrdinal] using hlt
    · cases c with
      | none => simpa [confidenceOrdinal] using hlt
      | some t =>
        have ht : t ∉ recognizedConfidenceLabels := hc t rfl
        have : confidenceOrdinal (some t) = 10 := by
          simp only [recognizedConfidenceLabels, List.mem_cons,
            List.mem_singleton, not_or] at ht
          obtain ⟨h1, h2, h3, h4, h5, h6, h7, h8, h9, -⟩ := ht
          simp [confidenceOrdinal, h1, h2, h3, h4, h5, h6, h7, h8, h9]
        rw [this]
        exact hlt

/-- C4 witness: an unrecognized label sorts after a recognized one. -/
theorem evidence_ranking_spec_witness :
    confidenceOrdinal (some "Totally made up") = 10 ∧
    confidenceOrdinal (some "Late trials") <
      confidenceOrdinal (some "Totally made up") := by
  have h := evidence_ranking_spec "NSCLC" "EGFR" []
  have h10 := h.2.2.2.2.2.2.2.2.2.2.2.2.1 "Totally made up" (by decide)
  have hlt := (h.2.2.2.2.2.2.2.2.2.2.2.2.2 (some "Totally made up")
    "Late trials" (by decide)).2
    (Or.inr (fun t ht => by rw [Option.some_inj.mp ht.symm] at *; decide))
  exact ⟨h10, hlt⟩

/-! C5 lemmas. -/

theorem lookup_mem {β : Type} (t : List (String × β)) (a : String) (b : β)
    (h : t.lookup a = some b) : ∃ p ∈ t, p.2 = b := by
  induction t with
  | nil => simp [List.lookup] at h
  | cons q rest ih =>
    obtain ⟨k, v⟩ := q
    simp only [List.lookup] at h
    split at h
    · exact ⟨(k, v), List.mem_cons_self _ _, Option.some_inj.mp h⟩
    · obtain ⟨p, hp, hb⟩ := ih h
      exact ⟨p, List.mem_cons_of_mem _ hp, hb⟩

theorem testingRateOf_bounds (indication gene : String) :
    0 ≤ testingRateOf indication gene ∧ testingRateOf indication gene ≤ 1 := by
  unfold testingRateOf
  rcases houter : TESTING_RATES.lookup indication with _ | l
  · show (0 : ℚ) ≤ (0.5 : ℚ) ∧ (0.5 : ℚ) ≤ 1
    norm_num
  · obtain ⟨p, hp, rfl⟩ := lookup_mem _ _ _ houter
    simp only [Option.getD_some]
    rcases hinner : p.2.lookup gene with _ | v
    · show (0 : ℚ) ≤ (0.5 : ℚ) ∧ (0.5 : ℚ) ≤ 1
      norm_num
    · simp only [Option.getD_some]
      obtain ⟨q, hq, rfl⟩ := lookup_mem _ _ _ hinner
      simp only [TESTING_RATES] at hp
      fin_cases hp <;> fin_cases hq <;> constructor <;> norm_num

theorem geneMutationRateOf_nonneg (gene indication : String)
    (prevRows : List PrevalenceRow) :
    0 ≤ geneMutationRateOf gene indication prevRows := by
  simp only [geneMutationRateOf]
  split
  · norm_num
  · split
    · norm_num
    · positivity

theorem pytrunc_nonneg {q : ℚ} (h : 0 ≤ q) : 0 ≤ pytrunc q := by
  rw [pytrunc_of_nonneg h]
  exact Int.floor_nonneg.mpr h

theorem pytrunc_mul_le (x : ℤ) (r : ℚ) (hx : 0 ≤ x) (hr0 : 0 ≤ r)
    (hr1 : r ≤ 1) : pytrunc ((x : ℚ) * r) ≤ x := by
  have hxq : (0 : ℚ) ≤ (x : ℚ) := by exact_mod_cast hx
  rw [pytrunc_of_nonneg (mul_nonneg hxq hr0)]
  calc ⌊(x : ℚ) * r⌋ ≤ ⌊(x : ℚ)⌋ :=
        Int.floor_le_floor (mul_le_of_le_one_right hxq hr1)
    _ = x := Int.floor_intCast x

/-- C5 (amended) — Every stage count of the funnel is the floor of its
product (int() truncation on non-negative values); the fixed factors 0.65
and 0.30 are applied to `variantPositive`; and, PROVIDED the
prevalence-derived gene mutation rate and variant frequency are at most 1,
the chain `incidence ≥ tested ≥ max(genePositive, variantPositive) ≥
eligible` and `onTreatment ≤ eligible` holds.  (Without that bound the
code's SUM/MAX-derived gene rate can exceed 1 and break `tested ≥
genePositive`, see the counterexample.) -/
theorem patient_funnel_monotone (gene variant indication : String)
    (prevRows : List PrevalenceRow) (trialRows : List TrialVariantRow)
    (hg : geneMutationRateOf gene indication prevRows ≤ 1)
    (hv : variantFrequencyOf gene variant indication prevRows ≤ 1) :
    (fetch_patient_funnel gene variant indication prevRows trialRows).stages.map
        (fun s => s.count) =
      [(incidenceOf indication : ℤ), funnelTested gene indication,
       funnelGenePositive gene indication prevRows,
       funnelVariantPositive gene variant indication prevRows,
       funnelEligible gene variant indication prevRows,
       funnelOnTreatment gene variant indication prevRows] ∧
    funnelTested gene indication =
      ⌊(incidenceOf indication : ℚ) * testingRateOf indication gene⌋ ∧
    funnelGenePositive gene indication prevRows =
      ⌊(funnelTested gene indication : ℚ) *
        geneMutationRateOf gene indication prevRows⌋ ∧
    funnelVariantPositive gene variant indication prevRows =
      (if 0 < variantFrequencyOf gene variant indication prevRows then
        ⌊(funnelTested gene indication : ℚ) *
          variantFrequencyOf gene variant indication prevRows⌋
      else ⌊(funnelGenePositive gene indication prevRows : ℚ) * 0.3⌋) ∧
    funnelEligible gene variant indication prevRows =
      ⌊(funnelVariantPositive gene variant indication prevRows : ℚ) * 0.65⌋ ∧
    funnelOnTreatment gene variant indication prevRows =
      ⌊(funnelVariantPositive gene variant indication prevRows : ℚ) * 0.30⌋ ∧
    funnelTested gene indication ≤ (incidenceOf indication : ℤ) ∧
    funnelGenePositive gene indication prevRows ≤ funnelTested gene indication ∧
    funnelVariantPositive gene variant indication prevRows ≤
      funnelTested gene indication ∧
    funnelEligible gene variant indication prevRows ≤
      max (funnelGenePositive gene indication prevRows)
        (funnelVariantPositive gene variant indication prevRows) ∧
    funnelOnTreatment gene variant indication prevRows ≤
      funnelEligible gene variant indication prevRows := by
  obtain ⟨htr0, htr1⟩ := testingRateOf_bounds indication gene
  have hg0 := geneMutationRateOf_nonneg gene indication prevRows
  have hinc0 : (0 : ℚ) ≤ (incidenceOf indication : ℚ) := Nat.cast_nonneg _
  have htested0 : 0 ≤ funnelTested gene indication :=
    pytrunc_nonneg (mul_nonneg hinc0 htr0)
  have htested0q : (0 : ℚ) ≤ (funnelTested gene indication : ℚ) := by
    exact_mod_cast htested0
  have hgp0 : 0 ≤ funnelGenePositive gene indication prevRows :=
    pytrunc_nonneg (mul_nonneg htested0q hg0)
  have hgp0q : (0 : ℚ) ≤ (funnelGenePositive gene indication prevRows : ℚ) := by
    exact_mod_cast hgp0
  have hvp0 : 0 ≤ funnelVariantPositive gene variant indication prevRows := by
    unfold funnelVariantPositive
    split
    · rename_i hpos
      exact pytrunc_nonneg (mul_nonneg htested0q (le_of_lt hpos))
    · exact pytrunc_nonneg (mul_nonneg hgp0q (by norm_num))
  have hvp0q :
      (0 : ℚ) ≤ (funnelVariantPositive gene variant indication prevRows : ℚ) := by
    exact_mod_cast hvp0
  have htested_le : funnelTested gene indication ≤ (incidenceOf indication : ℤ) := by
    unfold funnelTested
    rw [show ((incidenceOf indication : ℕ) : ℚ) =
        (((incidenceOf indication : ℤ)) : ℚ) by push_cast; ring]
    exact pytrunc_mul_le _ _ (Int.ofNat_nonneg _) htr0 htr1
  have hgp_le : funnelGenePositive gene indication prevRows ≤
      funnelTested gene indication := by
    unfold funnelGenePositive
    exact pytrunc_mul_le _ _ htested0 hg0 hg
  have hvp_le : funnelVariantPositive gene variant indication prevRows ≤
      funnelTested gene indication := by
    unfold funnelVariantPositive
    split
    · rename_i hpos
      exact pytrunc_mul_le _ _ htested0 (le_of_lt hpos) hv
    · exact le_trans
        (pytrunc_mul_le _ _ hgp0 (by norm_num) (by norm_num)) hgp_le
  have helig_le : funnelEligible gene variant indication prevRows ≤
      max (funnelGenePositive gene indication prevRows)
        (funnelVariantPositive gene variant indication prevRows) := by
    unfold funnelEligible
    exact le_trans (pytrunc_mul_le _ _ hvp0 (by norm_num) (by norm_num))
      (le_max_right _ _)
  have hont_le : funnelOnTreatment gene variant indication prevRows ≤
      funnelEligible gene variant indication prevRows := by
    unfold funnelOnTreatment funnelEligible
    rw [pytrunc_of_nonneg (mul_nonneg hvp0q (by norm_num)),
      pytrunc_of_nonneg (mul_nonneg hvp0q (by norm_num))]
    exact Int.floor_le_floor
      (mul_le_mul_of_nonneg_left (by norm_num) hvp0q)
  refine ⟨rfl, ?_, ?_, ?_, ?_, ?_, htested_le, hgp_le, hvp_le, helig_le,
    hont_le⟩
  · exact pytrunc_of_nonneg (mul_nonneg hinc0 htr0)
  · exact pytrunc_of_nonneg (mul_nonneg htested0q hg0)
  · unfold funnelVariantPositive
    split
    · rename_i hpos
      exact pytrunc_of_nonneg (mul_nonneg htested0q (le_of_lt hpos))
    · exact pytrunc_of_nonneg (mul_nonneg hgp0q (by norm_num))
  · exact pytrunc_of_nonneg (mul_nonneg hvp0q (by norm_num))
  · exact pytrunc_of_nonneg (mul_nonneg hvp0q (by norm_num))

/-- C5 witness: the bounds discharged on the KRAS/G12C/NSCLC query with no
prevalence rows (derived rates 0.25 and 0). -/
theorem patient_funnel_monotone_witness :
    funnelOnTreatment "KRAS" "G12C" "NSCLC" [] ≤
      funnelEligible "KRAS" "G12C" "NSCLC" [] ∧
    funnelTested "KRAS" "NSCLC" ≤ (228000 : ℤ) := by
  have h := patient_funnel_monotone "KRAS" "G12C" "NSCLC" [] []
    (by rw [show geneMutationRateOf "KRAS" "NSCLC" [] = 0.25 from rfl]; norm_num)
    (by rw [show variantFrequencyOf "KRAS" "G12C" "NSCLC" [] = 0 from rfl]; norm_num)
  exact ⟨h.2.2.2.2.2.2.2.2.2.2,
    le_trans h.2.2.2.2.2.2.1
      (by rw [show incidenceOf "NSCLC" = 228000 from rfl]; norm_num)⟩

theorem pytrunc_intCast (z : ℤ) : pytrunc (z : ℚ) = z := by
  unfold pytrunc
  split
  · exact Int.floor_intCast z
  · exact Int.ceil_intCast z

/-- C5 counterexample — two well-formed prevalence rows for KRAS/NSCLC from
two datasets (80/100 and 40/100) make the derived gene mutation rate
`SUM(sample_count)/MAX(total_profiled) = 120/100 = 1.2 > 1`, so
`genePositive` (191520) EXCEEDS `tested` (159600): the claimed chain
`tested ≥ max(genePositive, variantPositive)` fails on the code. -/
theorem patient_funnel_not_monotone :
    (fetch_patient_funnel "KRAS" "G12C" "NSCLC"
        [⟨"KRAS", "G12D", "Lung Adenocarcinoma", some "NSCLC", 80, 100, 0.08,
          "genie_a", none, none⟩,
         ⟨"KRAS", "G12D", "Lung Adenocarcinoma", some "NSCLC", 40, 100, 0.04,
          "genie_b", none, none⟩] []).stages.map (fun s => s.count) =
      [228000, 159600, 191520, 57456, 37346, 17236] ∧
    funnelTested "KRAS" "NSCLC" <
      funnelGenePositive "KRAS" "NSCLC"
        [⟨"KRAS", "G12D", "Lung Adenocarcinoma", some "NSCLC", 80, 100, 0.08,
          "genie_a", none, none⟩,
         ⟨"KRAS", "G12D", "Lung Adenocarcinoma", some "NSCLC", 40, 100, 0.04,
          "genie_b", none, none⟩] := by
  have h1 : funnelTested "KRAS" "NSCLC" = 159600 := by
    unfold funnelTested
    rw [show incidenceOf "NSCLC" = 228000 from rfl,
      show testingRateOf "NSCLC" "KRAS" = 0.70 from rfl,
      show ((228000 : ℕ) : ℚ) * (0.70 : ℚ) = ((159600 : ℤ) : ℚ) by
        push_cast; norm_num]
    exact pytrunc_intCast _
  have h2 : geneMutationRateOf "KRAS" "NSCLC"
      [⟨"KRAS", "G12D", "Lung Adenocarcinoma", some "NSCLC", 80, 100, 0.08,
        "genie_a", none, none⟩,
       ⟨"KRAS", "G12D", "Lung Adenocarcinoma", some "NSCLC", 40, 100, 0.04,
        "genie_b", none, none⟩] = 6 / 5 := by
    rw [show geneMutationRateOf "KRAS" "NSCLC"
        [⟨"KRAS", "G12D", "Lung Adenocarcinoma", some "NSCLC", 80, 100, 0.08,
          "genie_a", none, none⟩,
         ⟨"KRAS", "G12D", "Lung Adenocarcinoma", some "NSCLC", 40, 100, 0.04,
          "genie_b", none, none⟩] =
      (if (((120 : ℕ) : ℚ) / (((100 : ℕ)) : ℚ) = 0) then 0.25
       else ((120 : ℕ) : ℚ) / (((100 : ℕ)) : ℚ)) from rfl]
    rw [if_neg (by norm_num)]
    norm_num
  have h3 : funnelGenePositive "KRAS" "NSCLC"
      [⟨"KRAS", "G12D", "Lung Adenocarcinoma", some "NSCLC", 80, 100, 0.08,
        "genie_a", none, none⟩,
       ⟨"KRAS", "G12D", "Lung Adenocarcinoma", some "NSCLC", 40, 100, 0.04,
        "genie_b", none, none⟩] = 191520 := by
    unfold funnelGenePositive
    rw [h1, h2,
      show ((159600 : ℤ) : ℚ) * (6 / 5 : ℚ) = ((191520 : ℤ) : ℚ) by
        push_cast; norm_num]
    exact pytrunc_intCast _
  have hvf : variantFrequencyOf "KRAS" "G12C" "NSCLC"
      [⟨"KRAS", "G12D", "Lung Adenocarcinoma", some "NSCLC", 80, 100, 0.08,
        "genie_a", none, none⟩,
       ⟨"KRAS", "G12D", "Lung Adenocarcinoma", some "NSCLC", 40, 100, 0.04,
        "genie_b", none, none⟩] = 0 := rfl
  have h4 : funnelVariantPositive "KRAS" "G12C" "NSCLC"
      [⟨"KRAS", "G12D", "Lung Adenocarcinoma", some "NSCLC", 80, 100, 0.08,
        "genie_a", none, none⟩,
       ⟨"KRAS", "G12D", "Lung Adenocarcinoma", some "NSCLC", 40, 100, 0.04,
        "genie_b", none, none⟩] = 57456 := by
    unfold funnelVariantPositive
    rw [hvf, if_neg (lt_irrefl 0), h3,
      show ((191520 : ℤ) : ℚ) * (0.3 : ℚ) = ((57456 : ℤ) : ℚ) by
        push_cast; norm_num]
    exact pytrunc_intCast _
  have h5 : funnelEligible "KRAS" "G12C" "NSCLC"
      [⟨"KRAS", "G12D", "Lung Adenocarcinoma", some "NSCLC", 80, 100, 0.08,
        "genie_a", none, none⟩,
       ⟨"KRAS", "G12D", "Lung Adenocarcinoma", some "NSCLC", 40, 100, 0.04,
        "genie_b", none, none⟩] = 37346 := by
    unfold funnelEligible
    rw [h4, pytrunc_of_nonneg (by positivity), Int.floor_eq_iff]
    constructor <;> push_cast <;> norm_num
  have h6 : funnelOnTreatment "KRAS" "G12C" "NSCLC"
      [⟨"KRAS", "G12D", "Lung Adenocarcinoma", some "NSCLC", 80, 100, 0.08,
        "genie_a", none, none⟩,
       ⟨"KRAS", "G12D", "Lung Adenocarcinoma", some "NSCLC", 40, 100, 0.04,
        "genie_b", none, none⟩] = 17236 := by
    unfold funnelOnTreatment
    rw [h4, pytrunc_of_nonneg (by positivity), Int.floor_eq_iff]
    constructor <;> push_cast <;> norm_num
  constructor
  · rw [show (fetch_patient_funnel "KRAS" "G12C" "NSCLC"
        [⟨"KRAS", "G12D", "Lung Adenocarcinoma", some "NSCLC", 80, 100, 0.08,
          "genie_a", none, none⟩,
         ⟨"KRAS", "G12D", "Lung Adenocarcinoma", some "NSCLC", 40, 100, 0.04,
          "genie_b", none, none⟩] []).stages.map (fun s => s.count) =
      [(incidenceOf "NSCLC" : ℤ), funnelTested "KRAS" "NSCLC",
       funnelGenePositive "KRAS" "NSCLC"
         [⟨"KRAS", "G12D", "Lung Adenocarcinoma", some "NSCLC", 80, 100, 0.08,
           "genie_a", none, none⟩,
          ⟨"KRAS", "G12D", "Lung Adenocarcinoma", some "NSCLC", 40, 100, 0.04,
           "genie_b", none, none⟩],
       funnelVariantPositive "KRAS" "G12C" "NSCLC"
         [⟨"KRAS", "G12D", "Lung Adenocarcinoma", some "NSCLC", 80, 100, 0.08,
           "genie_a", none, none⟩,
          ⟨"KRAS", "G12D", "Lung Adenocarcinoma", some "NSCLC", 40, 100, 0.04,
           "genie_b", none, none⟩],
       funnelEligible "KRAS" "G12C" "NSCLC"
         [⟨"KRAS", "G12D", "Lung Adenocarcinoma", some "NSCLC", 80, 100, 0.08,
           "genie_a", none, none⟩,
          ⟨"KRAS", "G12D", "Lung Adenocarcinoma", some "NSCLC", 40, 100, 0.04,
           "genie_b", none, none⟩],
       funnelOnTreatment "KRAS" "G12C" "NSCLC"
         [⟨"KRAS", "G12D", "Lung Adenocarcinoma", some "NSCLC", 80, 100, 0.08,
           "genie_a", none, none⟩,
          ⟨"KRAS", "G12D", "Lung Adenocarcinoma", some "NSCLC", 40, 100, 0.04,
           "genie_b", none, none⟩]] from rfl]
    rw [show (incidenceOf "NSCLC" : ℤ) = 228000 from rfl, h1, h3, h4, h5, h6]
  · rw [h1, h3]
    norm_num

/-- C6 — The spec's end-to-end KRAS G12C NSCLC scenario: with no prevalence
rows, incidence 228000 and testing rate 0.70 from the reference tables,
default gene rate 0.25 and the 0.3 variant fallback, the stage counts are
exactly 228000, 159600, 39900, 11970, 7780, 3591 (integer floor). -/
theorem patient_funnel_kras_g12c_nsclc :
    (fetch_patient_funnel "KRAS" "G12C" "NSCLC" [] []).stages.map
        (fun s => s.count) =
      [228000, 159600, 39900, 11970, 7780, 3591] ∧
    (fetch_patient_funnel "KRAS" "G12C" "NSCLC" [] []).datasetUsed = none ∧
    testingRateOf "NSCLC" "KRAS" = 0.70 ∧
    geneMutationRateOf "KRAS" "NSCLC" [] = 0.25 := by
  have h1 : funnelTested "KRAS" "NSCLC" = 159600 := by
    unfold funnelTested
    rw [show incidenceOf "NSCLC" = 228000 from rfl,
      show testingRateOf "NSCLC" "KRAS" = 0.70 from rfl,
      show ((228000 : ℕ) : ℚ) * (0.70 : ℚ) = ((159600 : ℤ) : ℚ) by
        push_cast; norm_num]
    exact pytrunc_intCast _
  have h3 : funnelGenePositive "KRAS" "NSCLC" [] = 39900 := by
    unfold funnelGenePositive
    rw [h1, show geneMutationRateOf "KRAS" "NSCLC" [] = 0.25 from rfl,
      show ((159600 : ℤ) : ℚ) * (0.25 : ℚ) = ((39900 : ℤ) : ℚ) by
        push_cast; norm_num]
    exact pytrunc_intCast _
  have h4 : funnelVariantPositive "KRAS" "G12C" "NSCLC" [] = 11970 := by
    unfold funnelVariantPositive
    rw [show variantFrequencyOf "KRAS" "G12C" "NSCLC" [] = 0 from rfl,
      if_neg (lt_irrefl 0), h3,
      show ((39900 : ℤ) : ℚ) * (0.3 : ℚ) = ((11970 : ℤ) : ℚ) by
        push_cast; norm_num]
    exact pytrunc_intCast _
  have h5 : funnelEligible "KRAS" "G12C" "NSCLC" [] = 7780 := by
    unfold funnelEligible
    rw [h4, pytrunc_of_nonneg (by positivity), Int.floor_eq_iff]
    constructor <;> push_cast <;> norm_num
  have h6 : funnelOnTreatment "KRAS" "G12C" "NSCLC" [] = 3591 := by
    unfold funnelOnTreatment
    rw [h4, show ((11970 : ℤ) : ℚ) * (0.30 : ℚ) = ((3591 : ℤ) : ℚ) by
        push_cast; norm_num]
    exact pytrunc_intCast _
  refine ⟨?_, rfl, rfl, rfl⟩
  rw [show (fetch_patient_funnel "KRAS" "G12C" "NSCLC" [] []).stages.map
        (fun s => s.count) =
      [(incidenceOf "NSCLC" : ℤ), funnelTested "KRAS" "NSCLC",
       funnelGenePositive "KRAS" "NSCLC" [],
       funnelVariantPositive "KRAS" "G12C" "NSCLC" [],
       funnelEligible "KRAS" "G12C" "NSCLC" [],
       funnelOnTreatment "KRAS" "G12C" "NSCLC" []] from rfl]
  rw [show (incidenceOf "NSCLC" : ℤ) = 228000 from rfl, h1, h3, h4, h5, h6]

theorem buildPrevalence_go_fst (l : List PrevalenceRow)
    (acc : List (String × PrevEntry)) (com : Option (List String)) :
    (l.foldl
      (fun acc r =>
        let key := prevKeyOf r
        let prev :=
          if key ∈ acc.1.map (fun p => p.1) then acc.1
          else acc.1 ++ [(key, prevEntryOf r)]
        let com :=
          match acc.2 with
          | some c => some c
          | none =>
            match r.coMutations with
            | none => none
            | some c => if c.isEmpty then none else some c
        (prev, com))
      (acc, com)).1 =
      acc ++ (keepFirstBy prevKeyOf (acc.map (fun p => p.1)) l).map
        (fun r => (prevKeyOf r, prevEntryOf r)) := by
  induction l generalizing acc com with
  | nil => simp [keepFirstBy]
  | cons r rest ih =>
    simp only [List.foldl_cons, keepFirstBy]
    by_cases h : prevKeyOf r ∈ acc.map (fun p => p.1)
    · rw [if_pos h, if_pos h]
      exact ih acc _
    · rw [if_neg h, if_neg h]
      rw [ih (acc ++ [(prevKeyOf r, prevEntryOf r)]) _]
      simp [List.append_assoc]

theorem buildPrevalence_go_snd (l : List PrevalenceRow)
    (acc : List (String × PrevEntry)) (com : Option (List String)) :
    (l.foldl
      (fun acc r =>
        let key := prevKeyOf r
        let prev :=
          if key ∈ acc.1.map (fun p => p.1) then acc.1
          else acc.1 ++ [(key, prevEntryOf r)]
        let com :=
          match acc.2 with
          | some c => some c
          | none =>
            match r.coMutations with
            | none => none
            | some c => if c.isEmpty then none else some c
        (prev, com))
      (acc, com)).2 =
      (match com with
       | some c => some c
       | none => firstNonemptyCom l) := by
  induction l generalizing acc com with
  | nil => cases com <;> rfl
  | cons r rest ih =>
    simp only [List.foldl_cons]
    cases com with
    | some c => rw [ih]
    | none =>
      cases hc : r.coMutations with
      | none =>
        rw [ih]
        simp [firstNonemptyCom, hc]
      | some c =>
        by_cases hce : c.isEmpty
        · rw [ih]
          simp [firstNonemptyCom, hc, hce]
        · rw [ih]
          simp [firstNonemptyCom, hc, hce]

theorem firstNonemptyCom_some (l : List PrevalenceRow) (c : List String)
    (h : firstNonemptyCom l = some c) :
    ∃ l₁ r l₂, l = l₁ ++ r :: l₂ ∧ r.coMutations = some c ∧ c ≠ [] ∧
      ∀ s ∈ l₁, ∀ d, s.coMutations = some d → d = [] := by
  induction l with
  | nil => simp [firstNonemptyCom] at h
  | cons r rest ih =>
    cases hc : r.coMutations with
    | none =>
      have h2 : firstNonemptyCom rest = some c := by
        rw [← h]
        simp [firstNonemptyCom, hc]
      obtain ⟨l₁, q, l₂, heq, hq, hne, hpre⟩ := ih h2
      refine ⟨r :: l₁, q, l₂, by rw [heq]; rfl, hq, hne, ?_⟩
      intro s hs d hd
      rcases List.mem_cons.mp hs with rfl | hs
      · rw [hc] at hd; cases hd
      · exact hpre s hs d hd
    | some c2 =>
      by_cases hce : c2.isEmpty
      · have h2 : firstNonemptyCom rest = some c := by
          rw [← h]
          simp [firstNonemptyCom, hc, hce]
        obtain ⟨l₁, q, l₂, heq, hq, hne, hpre⟩ := ih h2
        refine ⟨r :: l₁, q, l₂, by rw [heq]; rfl, hq, hne, ?_⟩
        intro s hs d hd
        rcases List.mem_cons.mp hs with rfl | hs
        · rw [hc] at hd
          cases hd
          exact List.isEmpty_iff.mp hce
        · exact hpre s hs d hd
      · have h2 : c2 = c := by
          have h3 := h
          simp [firstNonemptyCom, hc, hce] at h3
          exact h3
        refine ⟨[], r, rest, rfl, ?_, ?_, by simp⟩
        · rw [hc, h2]
        · rw [← h2]
          intro hnil
          exact hce (by simp [hnil])

theorem firstNonemptyCom_of_all_empty (l : List PrevalenceRow)
    (h : ∀ r ∈ l, ∀ d, r.coMutations = some d → d = []) :
    firstNonemptyCom l = none := by
  induction l with
  | nil => rfl
  | cons r rest ih =>
    have hrec := ih (fun s hs d hd => h s (List.mem_cons_of_mem _ hs) d hd)
    cases hc : r.coMutations with
    | none => simp [firstNonemptyCom, hc, hrec]
    | some c =>
      have hc0 : c = [] := h r (List.mem_cons_self _ _) c hc
      simp [firstNonemptyCom, hc, hc0, hrec]

/-- C10 — In the variant card, the prevalence entry kept for each
indication key is one of maximal frequency among the records resolving to
that key; the co-mutation list comes from the highest-frequency record
carrying a non-empty list, and is empty when no record carries one. -/
theorem variant_card_prevalence_spec (gene variant : String)
    (rows : List PrevalenceRow) :
    ((variant_card_prevalence gene variant rows).1.map (fun p => p.1)).Nodup ∧
    (∀ k e, (k, e) ∈ (variant_card_prevalence gene variant rows).1 →
      ∃ r ∈ rows.filter (fun r => r.gene == gene && r.variantName == variant),
        prevKeyOf r = k ∧ e = prevEntryOf r ∧
          ∀ s ∈ rows.filter (fun r =>
              r.gene == gene && r.variantName == variant),
            prevKeyOf s = k → s.frequency ≤ r.frequency) ∧
    ((variant_card_prevalence gene variant rows).2 ≠ [] →
      ∃ r ∈ rows.filter (fun r => r.gene == gene && r.variantName == variant),
        r.coMutations = some (variant_card_prevalence gene variant rows).2 ∧
          ∀ s ∈ rows.filter (fun r =>
              r.gene == gene && r.variantName == variant),
            ∀ d, s.coMutations = some d → d ≠ [] →
              s.frequency ≤ r.frequency) ∧
    ((∀ r ∈ rows.filter (fun r =>
        r.gene == gene && r.variantName == variant),
      ∀ d, r.coMutations = some d → d = []) →
      (variant_card_prevalence gene variant rows).2 = []) := by
  set matching := rows.filter (fun r =>
    r.gene == gene && r.variantName == variant) with hmatch
  set L := List.insertionSort prevOrderGE matching with hL
  have hperm : L.Perm matching := List.perm_insertionSort prevOrderGE matching
  have hsorted : List.Pairwise prevOrderGE L :=
    List.sorted_insertionSort prevOrderGE matching
  have hfst : (variant_card_prevalence gene variant rows).1 =
      (keepFirstBy prevKeyOf [] L).map
        (fun r => (prevKeyOf r, prevEntryOf r)) := by
    show (buildPrevalence L).1 = _
    unfold buildPrevalence
    rw [buildPrevalence_go_fst]
    simp
  have hsnd : (variant_card_prevalence gene variant rows).2 =
      (firstNonemptyCom L).getD [] := by
    show (buildPrevalence L).2.getD [] = _
    unfold buildPrevalence
    rw [buildPrevalence_go_snd]
  refine ⟨?_, ?_, ?_, ?_⟩
  · rw [hfst]
    have := (keepFirstBy_nodupKeys prevKeyOf [] L).1
    simpa [List.map_map, Function.comp] using this
  · intro k e hke
    rw [hfst] at hke
    obtain ⟨r, hr, hpair⟩ := List.mem_map.mp hke
    obtain ⟨hk, he⟩ := Prod.ext_iff.mp hpair
    refine ⟨r, hperm.mem_iff.mp (keepFirstBy_subset _ [] _ r hr), hk, he.symm,
      ?_⟩
    intro s hs hks
    exact keepFirstBy_max prevKeyOf prevOrderGE L
      (fun a => le_refl a.frequency) hsorted r hr s (hperm.mem_iff.mpr hs)
      (hks.trans hk.symm)
  · intro hne
    rw [hsnd] at hne ⊢
    rcases hcom : firstNonemptyCom L with _ | c
    · rw [hcom] at hne
      simp at hne
    · obtain ⟨l₁, r, l₂, heq, hrc, hcne, hpre⟩ :=
        firstNonemptyCom_some L c hcom
      have hrL : r ∈ L := by
        rw [heq]
        exact List.mem_append.mpr (Or.inr (List.mem_cons_self _ _))
      refine ⟨r, hperm.mem_iff.mp hrL, hrc, ?_⟩
      intro s hs d hd hdne
      have hsL : s ∈ L := hperm.mem_iff.mpr hs
      rw [heq] at hsL hsorted
      rcases List.mem_append.mp hsL with hs1 | hs2
      · exact absurd (hpre s hs1 d hd) hdne
      · rcases List.mem_cons.mp hs2 with rfl | hs3
        · exact le_refl _
        · exact (List.pairwise_cons.mp (List.pairwise_append.mp hsorted).2.1).1
            s hs3
  · intro hall
    rw [hsnd]
    rw [firstNonemptyCom_of_all_empty L
      (fun r hr d hd => hall r (hperm.mem_iff.mp hr) d hd)]
    rfl

/-- C10 witness: with the only matching record carrying no co-mutation
list, the returned coMutations list is empty. -/
theorem variant_card_prevalence_spec_witness :
    (variant_card_prevalence "KRAS" "G12C"
        [⟨"KRAS", "G12C", "Lung Adenocarcinoma", some "NSCLC", 10, 100, 0.1,
          "genie", none, none⟩]).2 = [] := by
  exact (variant_card_prevalence_spec "KRAS" "G12C" _).2.2.2
    (fun r hr d hd => by
      have hr2 : r = ⟨"KRAS", "G12C", "Lung Adenocarcinoma", some "NSCLC", 10,
          100, 0.1, "genie", none, none⟩ := by
        simpa using (List.mem_filter.mp hr).1
      rw [hr2] at hd
      cases hd)

/-- C8 counterexample — a failure in a single section (the evidence read)
blocks ALL sections: the composer returns an error and no brief at all,
even though the druggability section alone succeeds on the same database.
So "a failure in one section does not block the other sections" is false
on the code (no exception isolation in `fetch_all_strategy_data` /
`get_strategy_brief`). -/
theorem strategy_brief_failure_blocks_all :
    fetch_all_strategy_data dbEvidenceDown "NSCLC" "EGFR" =
      Except.error DbErr.failure ∧
    fetch_druggability dbEvidenceDown "NSCLC" "EGFR" =
      Except.ok (druggabilityOf "NSCLC" "EGFR" [] []) := by
  constructor <;> rfl

/-- C8 (amended) — When every read succeeds, the composer returns a brief
with all seven section keys present, each computed independently from its
own tables; a section with missing data is an empty/zeroed structure (the
empty database yields exactly the zero sections), never an omitted key.  A
read failure, however, aborts the whole brief (see the counterexample). -/
theorem strategy_brief_sections_spec (indication biomarker : String)
    (t1 : List TrialBmRow) (t2 : List AssayRow) (t3 : List CutoffTrendRow)
    (t4 : List AssocRow) (t5 : List DrugRow) (t6 : List EvidenceRow)
    (t7 : List GwasRow) (t8 : List PubmedRow) :
    fetch_all_strategy_data
        { trialBiomarkers := Except.ok t1, assays := Except.ok t2,
          cutoffTrends := Except.ok t3, otAssociations := Except.ok t4,
          otKnownDrugs := Except.ok t5, evidence := Except.ok t6,
          gwas := Except.ok t7, pubmed := Except.ok t8 } indication biomarker =
      Except.ok
        { trialSummary := trialSummaryOf indication biomarker t1
          cutoffLandscape := cutoffLandscapeOf indication biomarker t1 t2 t3
          druggability := druggabilityOf indication biomarker t4 t5
          evidence := evidenceOf indication biomarker t6
          assayLandscape := assayLandscapeOf biomarker t2
          geneticContext := geneticContextOf biomarker t7
          publications := publicationsOf indication biomarker t8 } ∧
    trialSummaryOf indication biomarker [] =
      { total := 0, recruiting := 0, byPhase := [], topSponsors := [],
        yearTrend := [], firstTrialYear := none, latestTrialYear := none } ∧
    cutoffLandscapeOf indication biomarker [] [] [] =
      { dominantCutoffs := [], assaysUsed := [], companionDiagnostics := [],
        cutoffTrends := [] } ∧
    druggabilityOf indication biomarker [] [] =
      { combined := emptyCombinedAssoc, approvedDrugs := [],
        pipelineDrugs := [] } ∧
    evidenceOf indication biomarker [] = { total := 0, byLevel := [] } ∧
    assayLandscapeOf biomarker [] = { fdaApproved := [], researchUse := [] } ∧
    publicationsOf indication biomarker [] = [] := by
  refine ⟨?_, rfl, rfl, rfl, rfl, rfl, rfl⟩
  show (fetch_genetic_context
      { trialBiomarkers := Except.ok t1, assays := Except.ok t2,
        cutoffTrends := Except.ok t3, otAssociations := Except.ok t4,
        otKnownDrugs := Except.ok t5, evidence := Except.ok t6,
        gwas := Except.ok t7, pubmed := Except.ok t8 } biomarker).bind _ = _
  unfold fetch_genetic_context
  by_cases h : ((BIOMARKER_GENE_MAP.lookup biomarker).getD []).isEmpty
  · rw [if_pos h]
    show Except.ok _ = Except.ok _
    congr 1
    show { trialSummary := trialSummaryOf indication biomarker t1,
           cutoffLandscape := cutoffLandscapeOf indication biomarker t1 t2 t3,
           druggability := druggabilityOf indication biomarker t4 t5,
           evidence := evidenceOf indication biomarker t6,
           assayLandscape := assayLandscapeOf biomarker t2,
           geneticContext := geneticContextOf biomarker [],
           publications := publicationsOf indication biomarker t8 } =
        ({ trialSummary := trialSummaryOf indication biomarker t1,
           cutoffLandscape := cutoffLandscapeOf indication biomarker t1 t2 t3,
           druggability := druggabilityOf indication biomarker t4 t5,
           evidence := evidenceOf indication biomarker t6,
           assayLandscape := assayLandscapeOf biomarker t2,
           geneticContext := geneticContextOf biomarker t7,
           publications := publicationsOf indication biomarker t8 } :
          StrategyData)
    congr 1
    simp only [geneticContextOf]
    rw [if_pos h, if_pos h]
  · rw [if_neg h]
    rfl

/-- C8 witness: the all-empty database yields the all-zero seven-section
brief through the amended theorem. -/
theorem strategy_brief_sections_spec_witness :
    fetch_all_strategy_data
        { trialBiomarkers := Except.ok [], assays := Except.ok [],
          cutoffTrends := Except.ok [], otAssociations := Except.ok [],
          otKnownDrugs := Except.ok [], evidence := Except.ok [],
          gwas := Except.ok [], pubmed := Except.ok [] } "NSCLC" "EGFR" =
      Except.ok
        { trialSummary := trialSummaryOf "NSCLC" "EGFR" []
          cutoffLandscape := cutoffLandscapeOf "NSCLC" "EGFR" [] [] []
          druggability := druggabilityOf "NSCLC" "EGFR" [] []
          evidence := evidenceOf "NSCLC" "EGFR" []
          assayLandscape := assayLandscapeOf "EGFR" []
          geneticContext := geneticContextOf "EGFR" []
          publications := publicationsOf "NSCLC" "EGFR" [] } :=
  (strategy_brief_sections_spec "NSCLC" "EGFR" [] [] [] [] [] [] [] []).1

/-- C9 — Biomarker → gene resolution is a case-sensitive exact lookup in
the static table; a name with no entry, or one mapping to zero genes (like
"TMB"), makes `fetch_genetic_context` return the empty context without
touching (or being affected by) storage — a valid result, never an error. -/
theorem genetic_context_missing_mapping (db : Db) (biomarker : String)
    (h : (BIOMARKER_GENE_MAP.lookup biomarker).getD [] = []) :
    fetch_genetic_context db biomarker =
      Except.ok { gwasVariants := [], geneSymbols := [] } ∧
    (BIOMARKER_GENE_MAP.lookup "TMB").getD [] = [] ∧
    BIOMARKER_GENE_MAP.lookup "tmb" = none ∧
    BIOMARKER_GENE_MAP.lookup "egfr" = none ∧
    BIOMARKER_GENE_MAP.lookup "EGFR" = some ["EGFR"] := by
  refine ⟨?_, rfl, rfl, rfl, rfl⟩
  have he : ((BIOMARKER_GENE_MAP.lookup biomarker).getD []).isEmpty = true := by
    rw [h]
    rfl
  unfold fetch_genetic_context
  rw [if_pos he]
  simp only [geneticContextOf]
  rw [if_pos he]
  simp [h]

/-- C9 witness: "TMB" resolves to zero genes and yields the empty genetic
context even on a database whose every read fails. -/
theorem genetic_context_missing_mapping_witness :
    fetch_genetic_context
        { trialBiomarkers := Except.error DbErr.failure,
          assays := Except.error DbErr.failure,
          cutoffTrends := Except.error DbErr.failure,
          otAssociations := Except.error DbErr.failure,
          otKnownDrugs := Except.error DbErr.failure,
          evidence := Except.error DbErr.failure,
          gwas := Except.error DbErr.failure,
          pubmed := Except.error DbErr.failure } "TMB" =
      Except.ok { gwasVariants := [], geneSymbols := [] } :=
  (genetic_context_missing_mapping _ "TMB" rfl).1
